import Mathlib

/-!
# TracyD3D12.hpp: the timestamp-query ring of a Direct3D 12 queue context

A shallow embedding of `tracy::D3D12QueueCtx` (`NextQueryId`, `Collect`) and of
`tracy::D3D12ZoneScope` (constructor and destructor) from `src/TracyD3D12.hpp`.

Conventions of the embedding.

* `uint32_t`, `uint16_t` values are natural numbers; every C++ operation that can
  wrap is followed by an explicit reduction (`u32`, `u16`).
* The serial queue of the profiler and the command list are output channels: an
  operation returns the items it appended, in order.
* `assert` failures are `none`.
* Reads of the environment (`Profiler::GetTime()`, `GetThreadHandle()`,
  `GetProfiler().IsConnected()`, the mapped readback buffer) are parameters.
* The preprocessor switches `TRACY_ON_DEMAND` and
  `TRACY_HAS_CALLSTACK && TRACY_CALLSTACK` are fields of `Build`.
-/

namespace tracy

/-! ## Machine integers -/

/-- Reduction of a natural number to a `uint32_t` value (modulo `2^32`). -/
def u32 (n : Nat) : Nat := n % 4294967296

/-- Reduction of a natural number to a `uint16_t` value (modulo `2^16`),
the effect of `static_cast<uint16_t>`. -/
def u16 (n : Nat) : Nat := n % 65536

/-- The constant `D3D12QueueCtx::MaxQueries = 64 * 1024` (line 42). -/
def MaxQueries : Nat := 64 * 1024

/-! ## Build configuration and output channels -/

/-- The preprocessor configuration the header is compiled under. -/
structure Build where
  /-- Whether `TRACY_ON_DEMAND` is defined. -/
  onDemand : Bool
  /-- The value of `TRACY_CALLSTACK` when both `TRACY_HAS_CALLSTACK` and
  `TRACY_CALLSTACK` are defined. -/
  callstack : Option Nat
deriving DecidableEq, Repr

/-- The items this header writes to the serial queue of the profiler
(`Profiler::QueueSerial` … `Profiler::QueueSerialFinish`), with the fields it
fills in. -/
inductive QueueItem where
  | GpuZoneBeginSerial (cpuTime srcloc thread queryId context : Nat)
  | GpuZoneBeginCallstackSerial (cpuTime srcloc thread queryId context : Nat)
  | GpuZoneEndSerial (cpuTime thread queryId context : Nat)
  | GpuTime (gpuTime queryId context : Nat)
deriving DecidableEq, Repr

/-- The `queryId` field of a queue item. -/
def QueueItem.queryId : QueueItem → Nat
  | .GpuZoneBeginSerial _ _ _ q _ => q
  | .GpuZoneBeginCallstackSerial _ _ _ q _ => q
  | .GpuZoneEndSerial _ _ q _ => q
  | .GpuTime _ q _ => q

/-- The `context` field of a queue item. -/
def QueueItem.context : QueueItem → Nat
  | .GpuZoneBeginSerial _ _ _ _ c => c
  | .GpuZoneBeginCallstackSerial _ _ _ _ c => c
  | .GpuZoneEndSerial _ _ _ c => c
  | .GpuTime _ _ c => c

/-- Whether the item is a `GpuTime` item. -/
def QueueItem.isGpuTime : QueueItem → Bool
  | .GpuTime _ _ _ => true
  | _ => false

/-- The `gpuTime` field of a `GpuTime` item; `0` for the items that have no such
field. -/
def QueueItem.gpuTime : QueueItem → Nat
  | .GpuTime t _ _ => t
  | _ => 0

/-- The calls this header makes on `ID3D12GraphicsCommandList` (the query heap,
the query type and the destination buffer are the same in every call). -/
inductive Cmd where
  /-- The call `EndQuery(heap, D3D12_QUERY_TYPE_TIMESTAMP, index)`. -/
  | EndQuery (index : Nat)
  /-- The call `ResolveQueryData(heap, type, startIndex, numQueries, buffer, offset)`. -/
  | ResolveQueryData (startIndex numQueries alignedDestinationBufferOffset : Nat)
deriving DecidableEq, Repr

/-- What one operation appends to the output channels. -/
structure Effects where
  /-- Calls recorded on the command list. -/
  cmds : List Cmd
  /-- Items written to the serial queue. -/
  items : List QueueItem
  /-- Arguments of `GetProfiler().SendCallstack(..)` calls. -/
  callstacks : List Nat
deriving DecidableEq, Repr

/-- No output at all. -/
def Effects.none : Effects := ⟨[], [], []⟩

/-- Outputs of two operations run one after the other. -/
def Effects.append (a b : Effects) : Effects :=
  ⟨a.cmds ++ b.cmds, a.items ++ b.items, a.callstacks ++ b.callstacks⟩

/-! ## D3D12QueueCtx -/

/-- The integer members of `D3D12QueueCtx` (lines 47, 51-53). -/
structure D3D12QueueCtx where
  /-- Member `uint8_t m_context`. -/
  m_context : Nat
  /-- Member `uint32_t m_queryLimit = MaxQueries`, halved by the constructor while
  the creation of the query heap fails. -/
  m_queryLimit : Nat
  /-- Member `uint32_t m_queryCounter = 0`. -/
  m_queryCounter : Nat
  /-- Member `uint32_t m_previousQueryCounter = 0`. -/
  m_previousQueryCounter : Nat
deriving DecidableEq, Repr

/-- The counters of a context right after its constructor has run, with the
query limit the constructor ended with: both counters keep their default
member initialiser `0`. -/
def D3D12QueueCtx.constructed (context queryLimit : Nat) : D3D12QueueCtx :=
  { m_context := context, m_queryLimit := queryLimit,
    m_queryCounter := 0, m_previousQueryCounter := 0 }

/-- Method `D3D12QueueCtx::GetId` (lines 212-215). -/
def D3D12QueueCtx.GetId (s : D3D12QueueCtx) : Nat := s.m_context

/-- Method `D3D12QueueCtx::NextQueryId` (lines 202-210). The result is `none` when
the assertion `m_queryCounter < m_queryLimit` fails, else the returned id and
the context after `++m_queryCounter`. -/
def D3D12QueueCtx.NextQueryId (s : D3D12QueueCtx) : Option (Nat × D3D12QueueCtx) :=
  if s.m_queryCounter < s.m_queryLimit then
    let id := u32 (s.m_previousQueryCounter + s.m_queryCounter) % s.m_queryLimit
    some (id, { s with m_queryCounter := u32 (s.m_queryCounter + 1) })
  else
    Option.none

/-- The body of the `for` loop of `Collect` (lines 178-187) at one `index`: the
`GpuTime` item it writes. `timestampData` is the mapped readback buffer. -/
def D3D12QueueCtx.collectItem (timestampData : Nat → Nat) (s : D3D12QueueCtx)
    (index : Nat) : QueueItem :=
  let timestamp := timestampData (u32 (s.m_previousQueryCounter + index) % s.m_queryLimit)
  let queryId := u32 (s.m_previousQueryCounter + index)
  QueueItem.GpuTime timestamp (u16 queryId) s.m_context

/-- Method `D3D12QueueCtx::Collect` (lines 148-199): the `GpuTime` items written and
the context afterwards. `connected` is `GetProfiler().IsConnected()`, read only
in the on-demand build; `timestampData` is the content of the readback buffer
as mapped by `Map` (the mapping is taken to succeed). The CPU zone opened by
`ZoneScopedC` is not part of this header and is left out. -/
def D3D12QueueCtx.Collect (b : Build) (connected : Bool) (timestampData : Nat → Nat)
    (s : D3D12QueueCtx) : List QueueItem × D3D12QueueCtx :=
  if s.m_queryCounter = s.m_previousQueryCounter then
    ([], s)
  else if b.onDemand && !connected then
    ([], { s with m_queryCounter := 0 })
  else
    let items := (List.range s.m_queryCounter).map (collectItem timestampData s)
    let previous := u32 (s.m_previousQueryCounter + s.m_queryCounter)
    let previous :=
      if previous ≥ s.m_queryLimit then u32 (previous - s.m_queryLimit) else previous
    (items, { s with m_previousQueryCounter := previous, m_queryCounter := 0 })

/-! ## D3D12ZoneScope -/

/-- The members of `D3D12ZoneScope` (lines 220-222). The two pointers are set
exactly when the scope is active; the objects they point to are passed to the
destructor explicitly. -/
structure D3D12ZoneScope where
  /-- Member `const bool m_active`. -/
  m_active : Bool
deriving DecidableEq, Repr

/-- The environment reads of one zone: the source location pointer, the thread
handle, and the two readings of `Profiler::GetTime()`. -/
structure ZoneCall where
  srcLocation : Nat
  thread : Nat
  beginTime : Nat
  endTime : Nat
deriving DecidableEq, Repr

/-- Constructor of `D3D12ZoneScope` (lines 225-257): the scope, its outputs and the
context afterwards; `none` when the assertion inside `NextQueryId` fails. -/
def D3D12ZoneScope.ctor (b : Build) (connected : Bool) (ctx : D3D12QueueCtx)
    (z : ZoneCall) (active : Bool) : Option (D3D12ZoneScope × Effects × D3D12QueueCtx) :=
  let m_active := if b.onDemand then active && connected else active
  if !m_active then
    some ({ m_active := m_active }, Effects.none, ctx)
  else
    match ctx.NextQueryId with
    | Option.none => Option.none
    | some (queryId, ctx1) =>
      let item :=
        match b.callstack with
        | some _ =>
          QueueItem.GpuZoneBeginCallstackSerial z.beginTime z.srcLocation z.thread
            (u16 queryId) ctx1.GetId
        | Option.none =>
          QueueItem.GpuZoneBeginSerial z.beginTime z.srcLocation z.thread
            (u16 queryId) ctx1.GetId
      let callstacks :=
        match b.callstack with
        | some depth => [depth]
        | Option.none => []
      some ({ m_active := m_active },
        { cmds := [Cmd.EndQuery queryId], items := [item], callstacks := callstacks }, ctx1)

/-- Destructor of `D3D12ZoneScope` (lines 259-276): its outputs and the context
afterwards; `none` when the assertion inside `NextQueryId` fails. In
`queryId - 1` the subtraction is in `uint32_t`; the byte offset is the product
of that 32-bit value with `sizeof(uint64_t) = 8`, computed in `size_t`, taken to
be 64 bits wide. -/
def D3D12ZoneScope.dtor (scope : D3D12ZoneScope) (ctx : D3D12QueueCtx) (z : ZoneCall) :
    Option (Effects × D3D12QueueCtx) :=
  if !scope.m_active then
    some (Effects.none, ctx)
  else
    match ctx.NextQueryId with
    | Option.none => Option.none
    | some (queryId, ctx1) =>
      let item := QueueItem.GpuZoneEndSerial z.endTime z.thread (u16 queryId) ctx1.GetId
      let start := u32 (queryId + 4294967296 - 1)
      some ({ cmds := [Cmd.EndQuery queryId,
                Cmd.ResolveQueryData start 2 (start * 8 % 18446744073709551616)],
              items := [item], callstacks := [] }, ctx1)

/-! ## Usage sequences -/

/-- A zone scope constructed and then destroyed (the lifetime of the variable that
`TracyD3D12NamedZone` declares), with nothing else touching the context in
between. -/
def zone (b : Build) (connected : Bool) (ctx : D3D12QueueCtx) (z : ZoneCall) (active : Bool) :
    Option (Effects × D3D12QueueCtx) :=
  match D3D12ZoneScope.ctor b connected ctx z active with
  | Option.none => Option.none
  | some (scope, e1, ctx1) =>
    match scope.dtor ctx1 z with
    | Option.none => Option.none
    | some (e2, ctx2) => some (e1.append e2, ctx2)

/-- Sequential zones, each opened with `active = true` (as `TracyD3D12Zone` does)
and closed before the next one is opened. -/
def zones (b : Build) (connected : Bool) : List ZoneCall → D3D12QueueCtx →
    Option (Effects × D3D12QueueCtx)
  | [], ctx => some (Effects.none, ctx)
  | z :: zs, ctx =>
    match zone b connected ctx z true with
    | Option.none => Option.none
    | some (e1, ctx1) =>
      match zones b connected zs ctx1 with
      | Option.none => Option.none
      | some (e2, ctx2) => some (e1.append e2, ctx2)

/-- The two operations that change the counters of a context. -/
inductive Op where
  | NextQueryId
  | Collect
deriving DecidableEq, Repr

/-- A run of operations on one context with the collector connected: the ids
returned by the `NextQueryId` calls in call order, the batch of items written
by each `Collect` call in call order, and the final context. The result is `none`
when an assertion fails. -/
def run (b : Build) (timestampData : Nat → Nat) : List Op → D3D12QueueCtx →
    Option (List Nat × List (List QueueItem) × D3D12QueueCtx)
  | [], s => some ([], [], s)
  | Op.NextQueryId :: ops, s =>
    match s.NextQueryId with
    | Option.none => Option.none
    | some (id, s1) =>
      match run b timestampData ops s1 with
      | Option.none => Option.none
      | some (ids, batches, s2) => some (id :: ids, batches, s2)
  | Op.Collect :: ops, s =>
    match run b timestampData ops (s.Collect b true timestampData).2 with
    | Option.none => Option.none
    | some (ids, batches, s2) => some (ids, (s.Collect b true timestampData).1 :: batches, s2)

/-- The slots of the readback buffer that hold the pending queries of a context,
oldest first: slot `(m_previousQueryCounter + j) mod m_queryLimit` for each
`j < m_queryCounter`. -/
def D3D12QueueCtx.pending (s : D3D12QueueCtx) : List Nat :=
  (List.range s.m_queryCounter).map
    (fun j => (s.m_previousQueryCounter + j) % s.m_queryLimit)

/-- The three counters hold `uint32_t` values. -/
def D3D12QueueCtx.IsU32 (s : D3D12QueueCtx) : Prop :=
  s.m_queryLimit < 4294967296 ∧ s.m_queryCounter < 4294967296 ∧
    s.m_previousQueryCounter < 4294967296

/-! ## Construction of a context -/

/-- The enumerator of `GpuContextType` the constructor writes (line 135). -/
inductive GpuContextType where
  | Vulkan
deriving DecidableEq, Repr

/-- The `GpuNewContext` queue item with the fields the constructor fills in
(lines 128-135). The `period` field is the single-precision quotient
`1E+09f / timestampFrequency`; the item records the frequency it is computed
from. -/
structure GpuNewContext where
  cpuTime : Nat
  gpuTime : Nat
  thread : Nat
  periodFrequency : Nat
  context : Nat
  accuracyBits : Nat
  type : GpuContextType
deriving DecidableEq, Repr

/-- What the device, the queue and the profiler answer to the constructor. -/
structure QueueEnv where
  /-- The value `GetGpuCtxCounter().fetch_add(1)` returns. -/
  contextId : Nat
  /-- Whether `queue->GetDesc().Type` is `D3D12_COMMAND_LIST_TYPE_COPY`. -/
  isCopyQueue : Bool
  /-- Whether `CheckFeatureSupport` succeeds. -/
  checkFeatureSupport : Bool
  /-- The frequency `GetTimestampFrequency` stores, `none` when it fails. -/
  timestampFrequency : Option Nat
  /-- The pair `(gpuTimestamp, cpuTimestamp)` that `GetClockCalibration` stores,
  `none` when it fails. -/
  clockCalibration : Option (Nat × Nat)
  /-- The value `Profiler::GetTime()` returns at line 87. -/
  profilerTime : Nat
  /-- Whether `CreateQueryHeap` succeeds for a heap of `Count` queries. -/
  createQueryHeap : Nat → Bool
  /-- Whether `CreateCommittedResource` succeeds for a buffer of `Width` bytes. -/
  createCommittedResource : Nat → Bool

/-- The `while` loop of lines 94-98, started with `m_queryLimit = limit`: the value
of `m_queryLimit` when the loop is left. The loop has no other exit than a
successful `CreateQueryHeap`; `none` means it is still running after `fuel` calls
of `CreateQueryHeap`. -/
def createQueryHeapLoop (createQueryHeap : Nat → Bool) : Nat → Nat → Option Nat
  | 0, _ => Option.none
  | fuel + 1, limit =>
    if createQueryHeap limit then some limit
    else createQueryHeapLoop createQueryHeap fuel (u32 (limit / 2))

/-- What the constructor leaves behind when it returns. -/
structure Constructed where
  /-- The integer members of the new context. -/
  ctx : D3D12QueueCtx
  /-- The `Width` of the readback buffer (line 105). -/
  readbackWidth : Nat
  /-- The items written to the serial queue. -/
  items : List GpuNewContext
  /-- The items handed to `GetProfiler().DeferItem` (on-demand build only). -/
  deferred : List GpuNewContext
deriving DecidableEq, Repr

/-- Constructor of `D3D12QueueCtx` (lines 56-144). The result is `none` when an
`assert(false && ..)` is reached or when the loop of lines 94-98 is still running
after `fuel` calls of `CreateQueryHeap`. -/
def D3D12QueueCtx.ctor (b : Build) (env : QueueEnv) (fuel : Nat) : Option Constructed :=
  if env.isCopyQueue && !env.checkFeatureSupport then Option.none
  else
    match env.timestampFrequency with
    | Option.none => Option.none
    | some timestampFrequency =>
      match env.clockCalibration with
      | Option.none => Option.none
      | some (gpuTimestamp, _) =>
        let cpuTimestamp := env.profilerTime
        match createQueryHeapLoop env.createQueryHeap fuel MaxQueries with
        | Option.none => Option.none
        | some m_queryLimit =>
          let width := m_queryLimit * 8 % 18446744073709551616
          if !env.createCommittedResource width then Option.none
          else
            let item : GpuNewContext :=
              { cpuTime := cpuTimestamp, gpuTime := gpuTimestamp, thread := 0,
                periodFrequency := timestampFrequency, context := env.contextId,
                accuracyBits := 0, type := GpuContextType.Vulkan }
            some { ctx := D3D12QueueCtx.constructed env.contextId m_queryLimit,
                   readbackWidth := width,
                   items := [item],
                   deferred := if b.onDemand then [item] else [] }

/-! ## Further notions used by the claims -/

/-- Method `NextQueryId` with the failing `assert` of line 204 made a value:
`Except.error` carries the context as it is when the assertion fires (nothing has
been assigned before it), `Except.ok` is the normal return. -/
def D3D12QueueCtx.NextQueryIdOutcome (s : D3D12QueueCtx) :
    Except D3D12QueueCtx (Nat × D3D12QueueCtx) :=
  if s.m_queryCounter < s.m_queryLimit then
    let id := u32 (s.m_previousQueryCounter + s.m_queryCounter) % s.m_queryLimit
    Except.ok (id, { s with m_queryCounter := u32 (s.m_queryCounter + 1) })
  else
    Except.error s

/-- The bounds on the two counters: at most `m_queryLimit` queries are pending and
the cursor is a slot of the ring. -/
def D3D12QueueCtx.Inv (s : D3D12QueueCtx) : Prop :=
  s.m_queryCounter ≤ s.m_queryLimit ∧ s.m_previousQueryCounter < s.m_queryLimit

/-- A call on a context; `Collect` comes with what `IsConnected()` answers. -/
inductive Call where
  | NextQueryId
  | Collect (connected : Bool)
deriving DecidableEq, Repr

/-- A run of calls that also keeps the list of slots handed out by `NextQueryId`
that are still pending, oldest first: `NextQueryId` adds the slot it returns, and
`Collect` removes as many of the oldest slots as `m_queryCounter` goes down by
(the queries it has read or dropped). The result is `none` when an assertion
fails. -/
def runCalls (b : Build) (timestampData : Nat → Nat) :
    List Call → List Nat → D3D12QueueCtx → Option (List Nat × D3D12QueueCtx)
  | [], pendingSlots, s => some (pendingSlots, s)
  | Call.NextQueryId :: calls, pendingSlots, s =>
    match s.NextQueryId with
    | Option.none => Option.none
    | some (id, s1) => runCalls b timestampData calls (pendingSlots ++ [id]) s1
  | Call.Collect connected :: calls, pendingSlots, s =>
    runCalls b timestampData calls
      (pendingSlots.drop
        (s.m_queryCounter - (s.Collect b connected timestampData).2.m_queryCounter))
      (s.Collect b connected timestampData).2

/-! ## Basic facts -/

theorem u32_of_lt {n : Nat} (h : n < 4294967296) : u32 n = n := by
  unfold u32; omega

theorem u16_of_lt {n : Nat} (h : n < 65536) : u16 n = n := by
  unfold u16; omega

theorem MaxQueries_eq : MaxQueries = 65536 := by
  unfold MaxQueries; norm_num

/-- Under its assertion, and when the 32-bit sum does not wrap, `NextQueryId`
returns the slot `(previous + counter) mod limit` and adds one to the counter. -/
theorem NextQueryId_eq (c L p h : Nat) (hL : L < 4294967296) (hsum : h + p < 4294967296)
    (hp : p < L) :
    (D3D12QueueCtx.mk c L p h).NextQueryId
      = some ((h + p) % L, D3D12QueueCtx.mk c L (p + 1) h) := by
  have h1 : u32 (h + p) = h + p := u32_of_lt hsum
  have h2 : u32 (p + 1) = p + 1 := u32_of_lt (by omega)
  simp [D3D12QueueCtx.NextQueryId, hp, h1, h2]

/-- What `Collect` does with the collector connected when it gets past the test of
line 153, for counters within a limit of at most `MaxQueries`: one `GpuTime` item
per pending query, read at slot `(previous + i) mod limit` and labelled
`previous + i` cut to 16 bits; then the cursor moves on modulo the limit. -/
theorem Collect_eq (b : Build) (timestampData : Nat → Nat) (c L p h : Nat)
    (hL : L ≤ MaxQueries) (hp : p ≤ L) (hh : h < L) (hne : p ≠ h) :
    (D3D12QueueCtx.mk c L p h).Collect b true timestampData
      = ((List.range p).map
          (fun i => QueueItem.GpuTime (timestampData ((h + i) % L)) (u16 (h + i)) c),
         D3D12QueueCtx.mk c L 0 ((h + p) % L)) := by
  rw [MaxQueries_eq] at hL
  have hitems : (List.range p).map (D3D12QueueCtx.collectItem timestampData ⟨c, L, p, h⟩)
      = (List.range p).map
          (fun i => QueueItem.GpuTime (timestampData ((h + i) % L)) (u16 (h + i)) c) := by
    apply List.map_congr_left
    intro i hi
    have hi2 : i < p := List.mem_range.mp hi
    have hu : u32 (h + i) = h + i := u32_of_lt (by omega)
    simp [D3D12QueueCtx.collectItem, hu]
  have hu : u32 (h + p) = h + p := u32_of_lt (by omega)
  have hcur : (if h + p ≥ L then u32 (h + p - L) else h + p) = (h + p) % L := by
    by_cases hge : h + p ≥ L
    · have h1 : u32 (h + p - L) = h + p - L := u32_of_lt (by omega)
      have h2 : (h + p) % L = h + p - L := by
        rw [Nat.mod_eq_sub_mod hge]
        exact Nat.mod_eq_of_lt (by omega)
      simp [hge, h1, h2]
    · have h2 : (h + p) % L = h + p := Nat.mod_eq_of_lt (by omega)
      simp [hge, h2]
  unfold D3D12QueueCtx.Collect
  simp only [hne, if_false, Bool.not_true, Bool.and_false, hitems, hu, hcur]
  rfl

/-- The query ids of the items of a connected, non-skipping `Collect` when
`previous + counter` stays within 16 bits. -/
theorem Collect_queryIds (b : Build) (timestampData : Nat → Nat) (c L p h : Nat)
    (hL : L ≤ MaxQueries) (hhp : h + p ≤ L) (hh : h < L) (hne : p ≠ h) :
    ((D3D12QueueCtx.mk c L p h).Collect b true timestampData).1.map QueueItem.queryId
      = List.range' h p := by
  rw [Collect_eq b timestampData c L p h hL (by omega) hh hne]
  rw [MaxQueries_eq] at hL
  rw [List.range'_eq_map_range, List.map_map]
  apply List.map_congr_left
  intro i hi
  have hi2 : i < p := List.mem_range.mp hi
  simp [QueueItem.queryId, u16_of_lt (show h + i < 65536 by omega)]

/-- The two ways a `Collect` with the collector connected can go on a context whose
counters are within the limit: skipped by the test of line 153, or the pending
batch is written out. -/
theorem Collect_connected (b : Build) (timestampData : Nat → Nat) (c L p h : Nat)
    (hL : L ≤ MaxQueries) (hp : p ≤ L) (hh : h < L ∨ h = 0) :
    (p = h ∧ (D3D12QueueCtx.mk c L p h).Collect b true timestampData
        = ([], D3D12QueueCtx.mk c L p h))
    ∨ (p ≠ h ∧ h < L ∧ (D3D12QueueCtx.mk c L p h).Collect b true timestampData
        = ((List.range p).map
            (fun i => QueueItem.GpuTime (timestampData ((h + i) % L)) (u16 (h + i)) c),
           D3D12QueueCtx.mk c L 0 ((h + p) % L))) := by
  by_cases h0 : p = h
  · left
    refine ⟨h0, ?_⟩
    simp [D3D12QueueCtx.Collect, h0]
  · right
    have hlt : h < L := by omega
    exact ⟨h0, hlt, Collect_eq b timestampData c L p h hL hp hlt h0⟩

/-- The bookkeeping of a run, from any context whose counters are within the
limit: items written plus queries still pending equal queries pending at the
start plus ids handed out; every item is a `GpuTime` item; and the values carried
by the items, followed by the content of the slots still pending, are the content
of the slots pending at the start followed by that of the slots handed out. -/
theorem run_trace (b : Build) (timestampData : Nat → Nat) :
    ∀ (ops : List Op) (c L p h : Nat) (ids : List Nat) (bs : List (List QueueItem))
      (s2 : D3D12QueueCtx),
      L ≤ MaxQueries → p ≤ L → (h < L ∨ h = 0) →
      run b timestampData ops (D3D12QueueCtx.mk c L p h) = some (ids, bs, s2) →
        bs.flatten.length + s2.m_queryCounter = p + ids.length
        ∧ ids.length = ops.count Op.NextQueryId
        ∧ (∀ x ∈ bs.flatten, x.isGpuTime = true)
        ∧ ((D3D12QueueCtx.mk c L p h).pending ++ ids).map timestampData
            = bs.flatten.map QueueItem.gpuTime ++ s2.pending.map timestampData := by
  intro ops
  induction ops with
  | nil =>
    intro c L p h ids bs s2 _ _ _ hrun
    simp only [run, Option.some.injEq, Prod.mk.injEq] at hrun
    obtain ⟨rfl, rfl, rfl⟩ := hrun
    simp
  | cons op ops ih =>
    intro c L p h ids bs s2 hL hp hh hrun
    have hL2 : L ≤ 65536 := by rw [MaxQueries_eq] at hL; exact hL
    cases op with
    | NextQueryId =>
      by_cases hpl : p < L
      · have hn := NextQueryId_eq c L p h (by omega) (by omega) hpl
        simp only [run, hn] at hrun
        cases hr : run b timestampData ops (D3D12QueueCtx.mk c L (p + 1) h) with
        | none => simp [hr] at hrun
        | some r =>
          obtain ⟨ids1, bs1, s3⟩ := r
          simp only [hr, Option.some.injEq, Prod.mk.injEq] at hrun
          obtain ⟨rfl, rfl, rfl⟩ := hrun
          obtain ⟨k1, k2, k3, k4⟩ := ih c L (p + 1) h ids1 bs1 s3 hL (by omega) hh hr
          refine ⟨?_, ?_, k3, ?_⟩
          · simp only [List.length_cons]; omega
          · simp only [List.length_cons, List.count_cons_self]; omega
          · have hpend : (D3D12QueueCtx.mk c L (p + 1) h).pending
                = (D3D12QueueCtx.mk c L p h).pending ++ [(h + p) % L] := by
              simp [D3D12QueueCtx.pending, List.range_succ]
            rw [hpend] at k4
            rw [← k4]
            simp
      · have hn : (D3D12QueueCtx.mk c L p h).NextQueryId = Option.none := by
          simp [D3D12QueueCtx.NextQueryId, hpl]
        simp [run, hn] at hrun
    | Collect =>
      simp only [run] at hrun
      have hcount : List.count Op.NextQueryId (Op.Collect :: ops)
          = List.count Op.NextQueryId ops :=
        List.count_cons_of_ne (by decide) ops
      rcases Collect_connected b timestampData c L p h hL hp hh with ⟨h0, hc⟩ | ⟨h0, hlt, hc⟩
      · rw [hc] at hrun
        cases hr : run b timestampData ops (D3D12QueueCtx.mk c L p h) with
        | none => simp [hr] at hrun
        | some r =>
          obtain ⟨ids1, bs1, s3⟩ := r
          simp only [hr, Option.some.injEq, Prod.mk.injEq] at hrun
          obtain ⟨rfl, rfl, rfl⟩ := hrun
          obtain ⟨k1, k2, k3, k4⟩ := ih c L p h ids1 bs1 s3 hL hp hh hr
          refine ⟨?_, ?_, ?_, ?_⟩
          · simpa using k1
          · rw [hcount]; exact k2
          · simpa using k3
          · simpa using k4
      · rw [hc] at hrun
        have hmod : (h + p) % L < L := Nat.mod_lt _ (by omega)
        cases hr : run b timestampData ops (D3D12QueueCtx.mk c L 0 ((h + p) % L)) with
        | none => simp [hr] at hrun
        | some r =>
          obtain ⟨ids1, bs1, s3⟩ := r
          simp only [hr, Option.some.injEq, Prod.mk.injEq] at hrun
          obtain ⟨rfl, rfl, rfl⟩ := hrun
          obtain ⟨k1, k2, k3, k4⟩ :=
            ih c L 0 ((h + p) % L) ids1 bs1 s3 hL (by omega) (Or.inl hmod) hr
          refine ⟨?_, ?_, ?_, ?_⟩
          · simp only [List.flatten_cons, List.length_append, List.length_map,
              List.length_range]
            omega
          · rw [hcount]; exact k2
          · intro x hx
            simp only [List.flatten_cons, List.mem_append, List.mem_map] at hx
            rcases hx with ⟨i, -, rfl⟩ | hx
            · rfl
            · exact k3 x hx
          · have hnil : (D3D12QueueCtx.mk c L 0 ((h + p) % L)).pending = [] := by
              simp [D3D12QueueCtx.pending]
            rw [hnil, List.nil_append] at k4
            simp only [List.flatten_cons, List.map_append, k4, List.append_assoc]
            congr 1
            simp [D3D12QueueCtx.pending, QueueItem.gpuTime, Function.comp_def]

/-- One active zone on a context with room for two more queries before the end of
the ring: the ids written into its begin and end items are `previous + counter`
and the next integer, and the counter grows by two. -/
theorem zone_eq (b : Build) (c L p h : Nat) (z : ZoneCall)
    (hL : L ≤ MaxQueries) (hroom : h + p + 2 ≤ L) :
    ∃ e, zone b true (D3D12QueueCtx.mk c L p h) z true
        = some (e, D3D12QueueCtx.mk c L (p + 2) h)
      ∧ e.items.map QueueItem.queryId = [h + p, h + p + 1] := by
  rw [MaxQueries_eq] at hL
  have n1 := NextQueryId_eq c L p h (by omega) (by omega) (by omega)
  have n2 := NextQueryId_eq c L (p + 1) h (by omega) (by omega) (by omega)
  have m1 : (h + p) % L = h + p := Nat.mod_eq_of_lt (by omega)
  have m2 : (h + (p + 1)) % L = h + p + 1 := by
    rw [Nat.mod_eq_of_lt (by omega)]; omega
  have v1 : u16 (h + p) = h + p := u16_of_lt (by omega)
  have v2 : u16 (h + p + 1) = h + p + 1 := u16_of_lt (by omega)
  rw [m1] at n1
  rw [m2] at n2
  have hact : (if b.onDemand then true && true else true) = true := by
    cases b.onDemand <;> rfl
  unfold zone D3D12ZoneScope.ctor
  simp only [hact, Bool.not_true, Bool.false_eq_true, if_false, n1]
  unfold D3D12ZoneScope.dtor
  simp only [Bool.not_true, Bool.false_eq_true, if_false, n2]
  refine ⟨_, rfl, ?_⟩
  cases b.callstack <;>
    simp only [Effects.append, List.map_append, List.map_cons, List.map_nil,
      QueueItem.queryId, v1, v2, List.singleton_append]

/-- Sequential active zones that fit before the end of the ring get consecutive
ids starting at `previous + counter`. -/
theorem zones_eq (b : Build) (c L h : Nat) (hL : L ≤ MaxQueries) :
    ∀ (zs : List ZoneCall) (p : Nat), h + p + 2 * zs.length ≤ L →
      ∃ e, zones b true zs (D3D12QueueCtx.mk c L p h)
          = some (e, D3D12QueueCtx.mk c L (p + 2 * zs.length) h)
        ∧ e.items.map QueueItem.queryId = List.range' (h + p) (2 * zs.length) := by
  intro zs
  induction zs with
  | nil =>
    intro p _
    exact ⟨Effects.none, rfl, rfl⟩
  | cons z zs ih =>
    intro p hroom
    simp only [List.length_cons] at hroom
    obtain ⟨e1, hz, hid1⟩ := zone_eq b c L p h z hL (by omega)
    obtain ⟨e2, hzs, hid2⟩ := ih (p + 2) (by omega)
    refine ⟨e1.append e2, ?_, ?_⟩
    · have hlen : p + 2 * (z :: zs).length = p + 2 + 2 * zs.length := by
        simp only [List.length_cons]; omega
      simp only [zones, hz, hzs, hlen]
    · have hsplit : 2 * (z :: zs).length = 2 * zs.length + 1 + 1 := by
        simp only [List.length_cons]; omega
      rw [hsplit, List.range'_succ, List.range'_succ]
      simp only [Effects.append, List.map_append, hid1, hid2]
      have : h + (p + 2) = h + p + 1 + 1 := by omega
      rw [this]
      rfl

/-- The query ids written by a run that hands out no more ids than fit between
the position `previous + counter` and the end of the ring: consecutive integers
starting at the cursor. -/
theorem run_queryIds (b : Build) (timestampData : Nat → Nat) :
    ∀ (ops : List Op) (c L p h : Nat) (ids : List Nat) (bs : List (List QueueItem))
      (s2 : D3D12QueueCtx),
      L ≤ MaxQueries → (h < L ∨ h = 0) → h + p + ids.length ≤ L →
      run b timestampData ops (D3D12QueueCtx.mk c L p h) = some (ids, bs, s2) →
        bs.flatten.map QueueItem.queryId = List.range' h bs.flatten.length := by
  intro ops
  induction ops with
  | nil =>
    intro c L p h ids bs s2 _ _ _ hrun
    simp only [run, Option.some.injEq, Prod.mk.injEq] at hrun
    obtain ⟨rfl, rfl, rfl⟩ := hrun
    simp
  | cons op ops ih =>
    intro c L p h ids bs s2 hL hh hfit hrun
    have hL2 : L ≤ 65536 := by rw [MaxQueries_eq] at hL; exact hL
    cases op with
    | NextQueryId =>
      by_cases hpl : p < L
      · have hn := NextQueryId_eq c L p h (by omega) (by omega) hpl
        simp only [run, hn] at hrun
        cases hr : run b timestampData ops (D3D12QueueCtx.mk c L (p + 1) h) with
        | none => simp [hr] at hrun
        | some r =>
          obtain ⟨ids1, bs1, s3⟩ := r
          simp only [hr, Option.some.injEq, Prod.mk.injEq] at hrun
          obtain ⟨rfl, rfl, rfl⟩ := hrun
          simp only [List.length_cons] at hfit
          exact ih c L (p + 1) h ids1 bs1 s3 hL hh (by omega) hr
      · have hn : (D3D12QueueCtx.mk c L p h).NextQueryId = Option.none := by
          simp [D3D12QueueCtx.NextQueryId, hpl]
        simp [run, hn] at hrun
    | Collect =>
      simp only [run] at hrun
      by_cases h0 : p = h
      · have hc : (D3D12QueueCtx.mk c L p h).Collect b true timestampData
            = ([], D3D12QueueCtx.mk c L p h) := by
          simp [D3D12QueueCtx.Collect, h0]
        rw [hc] at hrun
        cases hr : run b timestampData ops (D3D12QueueCtx.mk c L p h) with
        | none => simp [hr] at hrun
        | some r =>
          obtain ⟨ids1, bs1, s3⟩ := r
          simp only [hr, Option.some.injEq, Prod.mk.injEq] at hrun
          obtain ⟨rfl, rfl, rfl⟩ := hrun
          simpa using ih c L p h ids1 bs1 s3 hL hh hfit hr
      · have hlt : h < L := by omega
        have hq := Collect_queryIds b timestampData c L p h hL (by omega) hlt h0
        have hc := Collect_eq b timestampData c L p h hL (by omega) hlt h0
        rw [hc] at hq
        rw [hc] at hrun
        cases hr : run b timestampData ops (D3D12QueueCtx.mk c L 0 ((h + p) % L)) with
        | none => simp [hr] at hrun
        | some r =>
          obtain ⟨ids1, bs1, s3⟩ := r
          simp only [hr, Option.some.injEq, Prod.mk.injEq] at hrun
          obtain ⟨rfl, rfl, rfl⟩ := hrun
          simp only at hq
          simp only [List.flatten_cons, List.map_append, hq, List.length_append,
            List.length_map, List.length_range]
          by_cases hw : h + p < L
          · have hm : (h + p) % L = h + p := Nat.mod_eq_of_lt hw
            rw [hm] at hr
            have k := ih c L 0 (h + p) ids1 bs1 s3 hL (Or.inl hw) (by omega) hr
            rw [k, List.range'_append_1, Nat.add_comm]
          · have hm : (h + p) % L = 0 := by
              have : h + p = L := by omega
              rw [this, Nat.mod_self]
            rw [hm] at hr
            have hlen : ids1.length = 0 := by omega
            have k := ih c L 0 0 ids1 bs1 s3 hL (Or.inr rfl) (by omega) hr
            obtain ⟨k1, -, -, -⟩ :=
              run_trace b timestampData ops c L 0 0 ids1 bs1 s3 hL (by omega) (Or.inr rfl) hr
            have hz : bs1.flatten.length = 0 := by omega
            have hnil : bs1.flatten = [] := List.length_eq_zero.mp hz
            simp [hnil]

theorem run_cons_NextQueryId (b : Build) (timestampData : Nat → Nat) (ops : List Op)
    (s : D3D12QueueCtx) :
    run b timestampData (Op.NextQueryId :: ops) s
      = match s.NextQueryId with
        | Option.none => Option.none
        | some (id, s1) =>
          match run b timestampData ops s1 with
          | Option.none => Option.none
          | some (ids, batches, s2) => some (id :: ids, batches, s2) := rfl

theorem run_cons_Collect (b : Build) (timestampData : Nat → Nat) (ops : List Op)
    (s : D3D12QueueCtx) :
    run b timestampData (Op.Collect :: ops) s
      = match run b timestampData ops (s.Collect b true timestampData).2 with
        | Option.none => Option.none
        | some (ids, batches, s2) =>
          some (ids, (s.Collect b true timestampData).1 :: batches, s2) := rfl

/-- A run that starts with `n` calls of `NextQueryId` for which there is room: the
calls return the next `n` slots of the ring and the rest of the run goes on from
the counter moved up by `n`. -/
theorem run_allocs (b : Build) (timestampData : Nat → Nat) (c L h : Nat)
    (rest : List Op) (hL : L ≤ MaxQueries) (hh : h < L) :
    ∀ (n p : Nat), p + n ≤ L →
      run b timestampData (List.replicate n Op.NextQueryId ++ rest) (D3D12QueueCtx.mk c L p h)
        = match run b timestampData rest (D3D12QueueCtx.mk c L (p + n) h) with
          | Option.none => Option.none
          | some (ids, bs, s2) =>
            some ((List.range n).map (fun j => (h + (p + j)) % L) ++ ids, bs, s2) := by
  have hL2 : L ≤ 65536 := by rw [MaxQueries_eq] at hL; exact hL
  intro n
  induction n with
  | zero =>
    intro p _
    simp only [List.replicate_zero, List.nil_append, Nat.add_zero, List.range_zero,
      List.map_nil]
    cases run b timestampData rest (D3D12QueueCtx.mk c L p h) <;> rfl
  | succ n ih =>
    intro p hp
    have hn := NextQueryId_eq c L p h (by omega) (by omega) (by omega)
    have hidx : p + 1 + n = p + (n + 1) := by omega
    rw [List.replicate_succ, List.cons_append, run_cons_NextQueryId, hn]
    simp only []
    rw [ih (p + 1) (by omega), hidx]
    cases run b timestampData rest (D3D12QueueCtx.mk c L (p + (n + 1)) h) with
    | none => rfl
    | some r =>
      obtain ⟨ids, bs, s2⟩ := r
      simp only [Option.some.injEq, Prod.mk.injEq, and_true]
      rw [List.range_succ_eq_map, List.map_cons, List.map_map, List.cons_append]
      congr 2
      apply List.map_congr_left
      intro j _
      simp only [Function.comp_apply, Nat.succ_eq_add_one]
      congr 2
      omega

/-! ## Claims -/

/-- C1. For every context state whose counters are 32-bit values with
`m_queryCounter < m_queryLimit` (and whose sum
`m_previousQueryCounter + m_queryCounter` does not leave the 32-bit range),
`NextQueryId` returns `(m_previousQueryCounter + m_queryCounter) mod m_queryLimit`
and increases `m_queryCounter` by exactly one, leaving `m_previousQueryCounter`,
`m_queryLimit` and `m_context` unchanged. -/
theorem NextQueryId_spec (s : D3D12QueueCtx) (hty : s.IsU32)
    (hsum : s.m_previousQueryCounter + s.m_queryCounter < 4294967296)
    (h : s.m_queryCounter < s.m_queryLimit) :
    ∃ s1, s.NextQueryId
        = some ((s.m_previousQueryCounter + s.m_queryCounter) % s.m_queryLimit, s1)
      ∧ s1.m_queryCounter = s.m_queryCounter + 1
      ∧ s1.m_previousQueryCounter = s.m_previousQueryCounter
      ∧ s1.m_queryLimit = s.m_queryLimit
      ∧ s1.m_context = s.m_context := by
  obtain ⟨c, L, p, hc⟩ := s
  exact ⟨_, NextQueryId_eq c L p hc hty.1 hsum h, rfl, rfl, rfl, rfl⟩

/-- Instance of C1: limit 4, two queries harvested before, one pending. -/
theorem NextQueryId_spec_witness :
    ∃ s1, (D3D12QueueCtx.mk 0 4 1 2).NextQueryId = some ((2 + 1) % 4, s1)
      ∧ s1.m_queryCounter = 1 + 1
      ∧ s1.m_previousQueryCounter = 2
      ∧ s1.m_queryLimit = 4
      ∧ s1.m_context = 0 :=
  NextQueryId_spec (D3D12QueueCtx.mk 0 4 1 2) (by unfold D3D12QueueCtx.IsU32; decide)
    (by decide) (by decide)

/-- C2 (the code at the failing input). With the default limit 65536, two queries
harvested by an earlier `Collect` and two new queries pending, `Collect` with the
collector connected writes no `GpuTime` item and changes nothing: the test
`m_queryCounter == m_previousQueryCounter` of line 153 takes the pending batch
for "no new queries". -/
theorem Collect_skips_pending_batch (b : Build) (timestampData : Nat → Nat) (c : Nat) :
    (D3D12QueueCtx.mk c 65536 2 2).Collect b true timestampData
      = ([], D3D12QueueCtx.mk c 65536 2 2) := by
  simp [D3D12QueueCtx.Collect]

/-- C3 (counterexample). Limit 65536 (so `2 ≤ limit`), nothing pending, cursor
65534 (below the limit), two sequential zones (`1 ≤ 2 ≤ limit / 2`): the zones get
the ids 65534, 65535, 0, 1, and `Collect` with the collector connected writes four
`GpuTime` items with exactly these ids, which are not strictly increasing. -/
theorem zones_then_Collect_wrap_counterexample :
    ∃ e s1, zones ⟨false, Option.none⟩ true [⟨0, 0, 0, 0⟩, ⟨0, 0, 0, 0⟩]
          (D3D12QueueCtx.mk 0 65536 0 65534) = some (e, s1)
      ∧ e.items.map QueueItem.queryId = [65534, 65535, 0, 1]
      ∧ (s1.Collect ⟨false, Option.none⟩ true (fun i => i)).1.map QueueItem.queryId
          = [65534, 65535, 0, 1]
      ∧ ¬ ((s1.Collect ⟨false, Option.none⟩ true (fun i => i)).1.map
            QueueItem.queryId).Pairwise (fun x y => x < y) := by
  refine ⟨_, _, rfl, ?_, ?_, ?_⟩
  · decide
  · decide
  · decide

/-- C3 (amended). For every context state with limit at most `MaxQueries`, nothing
pending, and every `N ≥ 1` sequential zones that fit between the cursor and the
end of the ring (`m_previousQueryCounter + 2N ≤ m_queryLimit`) with
`2N ≠ m_previousQueryCounter`: the zones succeed, and a `Collect` with the collector
connected then writes exactly `2N` items, all of them `GpuTime` items, whose query
ids are strictly increasing and equal, in order, to the query ids written into
the begin and end items of those zones; the i-th item carries the content of
slot `m_previousQueryCounter + i`, and afterwards nothing is pending and the
cursor is `(m_previousQueryCounter + 2N) mod m_queryLimit`. -/
theorem zones_then_Collect (b : Build) (timestampData : Nat → Nat) (s : D3D12QueueCtx)
    (zs : List ZoneCall) (hlimit : s.m_queryLimit ≤ MaxQueries)
    (hpc : s.m_queryCounter = 0) (hN : 1 ≤ zs.length)
    (hfit : s.m_previousQueryCounter + 2 * zs.length ≤ s.m_queryLimit)
    (hne : 2 * zs.length ≠ s.m_previousQueryCounter) :
    ∃ e s1, zones b true zs s = some (e, s1)
      ∧ (s1.Collect b true timestampData).1.length = 2 * zs.length
      ∧ (∀ x ∈ (s1.Collect b true timestampData).1, x.isGpuTime = true)
      ∧ (s1.Collect b true timestampData).1.map QueueItem.queryId
          = e.items.map QueueItem.queryId
      ∧ ((s1.Collect b true timestampData).1.map QueueItem.queryId).Pairwise
          (fun x y => x < y)
      ∧ (s1.Collect b true timestampData).1.map QueueItem.gpuTime
          = (List.range' s.m_previousQueryCounter (2 * zs.length)).map timestampData
      ∧ (s1.Collect b true timestampData).2.m_queryCounter = 0
      ∧ (s1.Collect b true timestampData).2.m_previousQueryCounter
          = (s.m_previousQueryCounter + 2 * zs.length) % s.m_queryLimit := by
  obtain ⟨c, L, p, h⟩ := s
  simp only at hlimit hpc hfit hne
  subst hpc
  obtain ⟨e, hz, hid⟩ := zones_eq b c L h hlimit zs 0 (by omega)
  simp only [Nat.zero_add, Nat.add_zero] at hz hid
  have hq := Collect_queryIds b timestampData c L (2 * zs.length) h hlimit hfit (by omega) hne
  have hc := Collect_eq b timestampData c L (2 * zs.length) h hlimit (by omega) (by omega) hne
  refine ⟨e, _, hz, ?_, ?_, ?_, ?_, ?_, ?_, ?_⟩
  · have := congrArg List.length hq
    simpa using this
  · rw [hc]
    intro x hx
    simp only [List.mem_map] at hx
    obtain ⟨i, -, rfl⟩ := hx
    rfl
  · rw [hq, hid]
  · rw [hq]
    exact List.pairwise_lt_range' h (2 * zs.length)
  · rw [hc, List.range'_eq_map_range, List.map_map, List.map_map]
    apply List.map_congr_left
    intro i hi
    have hi2 : i < 2 * zs.length := List.mem_range.mp hi
    simp only [Function.comp_apply, QueueItem.gpuTime]
    rw [Nat.mod_eq_of_lt (by omega)]
  · rw [hc]
  · rw [hc]

/-- Instance of C3, the scenario of the specification: limit 4, fresh context, one
zone. The zone gets the ids 0 and 1; `Collect` writes `GpuTime` items for the ids 0
and 1 in that order, carrying the content of slots 0 and 1, and leaves nothing
pending and the cursor at 2. -/
theorem zones_then_Collect_witness :
    ∃ e s1, zones ⟨false, Option.none⟩ true [⟨7, 8, 9, 10⟩] (D3D12QueueCtx.constructed 0 4)
          = some (e, s1)
      ∧ (s1.Collect ⟨false, Option.none⟩ true (fun i => 100 + i)).1.length = 2 * 1
      ∧ (∀ x ∈ (s1.Collect ⟨false, Option.none⟩ true (fun i => 100 + i)).1,
          x.isGpuTime = true)
      ∧ (s1.Collect ⟨false, Option.none⟩ true (fun i => 100 + i)).1.map QueueItem.queryId
          = e.items.map QueueItem.queryId
      ∧ ((s1.Collect ⟨false, Option.none⟩ true (fun i => 100 + i)).1.map
          QueueItem.queryId).Pairwise (fun x y => x < y)
      ∧ (s1.Collect ⟨false, Option.none⟩ true (fun i => 100 + i)).1.map QueueItem.gpuTime
          = (List.range' 0 (2 * 1)).map (fun i => 100 + i)
      ∧ (s1.Collect ⟨false, Option.none⟩ true (fun i => 100 + i)).2.m_queryCounter = 0
      ∧ (s1.Collect ⟨false, Option.none⟩ true (fun i => 100 + i)).2.m_previousQueryCounter
          = (0 + 2 * 1) % 4 :=
  zones_then_Collect ⟨false, Option.none⟩ (fun i => 100 + i) (D3D12QueueCtx.constructed 0 4)
    [⟨7, 8, 9, 10⟩] (by decide) rfl (by decide) (by decide) (by decide)

/-- C4 (the code at the failing input). On-demand build, collector disconnected,
limit 65536, six queries harvested earlier and six pending: `Collect` writes
nothing and does not reset `m_queryCounter`, which stays 6. -/
theorem Collect_disconnected_keeps_batch (cs : Option Nat) (timestampData : Nat → Nat)
    (c : Nat) :
    (D3D12QueueCtx.mk c 65536 6 6).Collect ⟨true, cs⟩ false timestampData
      = ([], D3D12QueueCtx.mk c 65536 6 6)
    ∧ ((D3D12QueueCtx.mk c 65536 6 6).Collect ⟨true, cs⟩ false timestampData).2.m_queryCounter
      = 6 := by
  simp [D3D12QueueCtx.Collect]

/-- C5. For every run of `NextQueryId` calls (none failing its assertion) and
`Collect` calls with the collector connected, from a freshly constructed context
with limit at most `MaxQueries`: the number of `GpuTime` items written so far plus
`m_queryCounter` equals the number of `NextQueryId` calls so far; nothing but
`GpuTime` items is written; and for every content of the readback buffer the k-th
item overall carries the content of the slot returned by the k-th `NextQueryId`
call overall. So each allocated query is harvested at most once. -/
theorem run_harvests_in_allocation_order (b : Build) (timestampData : Nat → Nat)
    (context L : Nat) (ops : List Op) (ids : List Nat) (batches : List (List QueueItem))
    (s2 : D3D12QueueCtx) (hlimit : L ≤ MaxQueries)
    (hrun : run b timestampData ops (D3D12QueueCtx.constructed context L)
      = some (ids, batches, s2)) :
    batches.flatten.length + s2.m_queryCounter = ids.length
      ∧ ids.length = ops.count Op.NextQueryId
      ∧ (∀ x ∈ batches.flatten, x.isGpuTime = true)
      ∧ batches.flatten.map QueueItem.gpuTime
          = (ids.take batches.flatten.length).map timestampData := by
  obtain ⟨k1, k2, k3, k4⟩ :=
    run_trace b timestampData ops context L 0 0 ids batches s2 hlimit (by omega)
      (Or.inr rfl) hrun
  refine ⟨by omega, k2, k3, ?_⟩
  have hnil : (D3D12QueueCtx.mk context L 0 0).pending = [] := by
    simp [D3D12QueueCtx.pending]
  rw [hnil, List.nil_append] at k4
  rw [List.map_take, k4]
  exact (List.take_left' (by rw [List.length_map])).symm

/-- Instance of C5: limit 4; two queries, `Collect`, two queries, `Collect` (skipped
by line 153), two queries (the ring wraps), `Collect`. The buffer holds `100 + i`
in slot `i`. The first conjunct is the run itself. -/
theorem run_harvests_in_allocation_order_witness :
    run ⟨false, Option.none⟩ (fun i => 100 + i)
        [Op.NextQueryId, Op.NextQueryId, Op.Collect, Op.NextQueryId, Op.NextQueryId,
          Op.Collect, Op.NextQueryId, Op.NextQueryId, Op.Collect]
        (D3D12QueueCtx.constructed 0 4)
      = some ([0, 1, 2, 3, 0, 1],
          [[QueueItem.GpuTime 100 0 0, QueueItem.GpuTime 101 1 0], [],
            [QueueItem.GpuTime 102 2 0, QueueItem.GpuTime 103 3 0, QueueItem.GpuTime 100 4 0,
              QueueItem.GpuTime 101 5 0]],
          D3D12QueueCtx.mk 0 4 0 2)
    ∧ ([[QueueItem.GpuTime 100 0 0, QueueItem.GpuTime 101 1 0], [],
          [QueueItem.GpuTime 102 2 0, QueueItem.GpuTime 103 3 0, QueueItem.GpuTime 100 4 0,
            QueueItem.GpuTime 101 5 0]].flatten.length
        + (D3D12QueueCtx.mk 0 4 0 2).m_queryCounter = [0, 1, 2, 3, 0, 1].length
      ∧ [0, 1, 2, 3, 0, 1].length
          = [Op.NextQueryId, Op.NextQueryId, Op.Collect, Op.NextQueryId, Op.NextQueryId,
              Op.Collect, Op.NextQueryId, Op.NextQueryId, Op.Collect].count Op.NextQueryId
      ∧ (∀ x ∈ [[QueueItem.GpuTime 100 0 0, QueueItem.GpuTime 101 1 0], [],
          [QueueItem.GpuTime 102 2 0, QueueItem.GpuTime 103 3 0, QueueItem.GpuTime 100 4 0,
            QueueItem.GpuTime 101 5 0]].flatten, x.isGpuTime = true)
      ∧ [[QueueItem.GpuTime 100 0 0, QueueItem.GpuTime 101 1 0], [],
          [QueueItem.GpuTime 102 2 0, QueueItem.GpuTime 103 3 0, QueueItem.GpuTime 100 4 0,
            QueueItem.GpuTime 101 5 0]].flatten.map QueueItem.gpuTime
          = ([0, 1, 2, 3, 0, 1].take
              [[QueueItem.GpuTime 100 0 0, QueueItem.GpuTime 101 1 0], [],
                [QueueItem.GpuTime 102 2 0, QueueItem.GpuTime 103 3 0,
                  QueueItem.GpuTime 100 4 0,
                  QueueItem.GpuTime 101 5 0]].flatten.length).map (fun i => 100 + i)) :=
  ⟨by decide,
    run_harvests_in_allocation_order ⟨false, Option.none⟩ (fun i => 100 + i) 0 4
      [Op.NextQueryId, Op.NextQueryId, Op.Collect, Op.NextQueryId, Op.NextQueryId,
        Op.Collect, Op.NextQueryId, Op.NextQueryId, Op.Collect]
      [0, 1, 2, 3, 0, 1]
      [[QueueItem.GpuTime 100 0 0, QueueItem.GpuTime 101 1 0], [],
        [QueueItem.GpuTime 102 2 0, QueueItem.GpuTime 103 3 0, QueueItem.GpuTime 100 4 0,
          QueueItem.GpuTime 101 5 0]]
      (D3D12QueueCtx.mk 0 4 0 2) (by decide) (by decide)⟩

/-- C6 (counterexample). Limit 4, fresh context: four queries, `Collect`, four more
queries, `Collect`. Every allocation is within capacity, yet the second `Collect`
writes the same ids 0, 1, 2, 3 as the first. -/
theorem later_Collect_ids_repeat_counterexample :
    ∃ ids batches s2,
      run ⟨false, Option.none⟩ (fun i => i)
          [Op.NextQueryId, Op.NextQueryId, Op.NextQueryId, Op.NextQueryId, Op.Collect,
            Op.NextQueryId, Op.NextQueryId, Op.NextQueryId, Op.NextQueryId, Op.Collect]
          (D3D12QueueCtx.constructed 0 4) = some (ids, batches, s2)
      ∧ batches.map (fun batch => batch.map QueueItem.queryId) = [[0, 1, 2, 3], [0, 1, 2, 3]]
      ∧ ¬ batches.Pairwise
          (fun earlier later => ∀ x ∈ earlier, ∀ y ∈ later, x.queryId < y.queryId) := by
  refine ⟨_, _, _, rfl, ?_, ?_⟩
  · decide
  · decide

/-- C6 (amended). Over a run of one freshly constructed context with limit at most
`MaxQueries` (no failing assertion, `Collect` calls with the collector connected)
in which at most `m_queryLimit` ids are handed out in total, so that the ring has
not yet wrapped, every query id written by a later `Collect` call is strictly
greater than every query id written by an earlier `Collect` call. -/
theorem later_Collect_ids_greater (b : Build) (timestampData : Nat → Nat)
    (context L : Nat) (ops : List Op) (ids : List Nat) (batches : List (List QueueItem))
    (s2 : D3D12QueueCtx) (hlimit : L ≤ MaxQueries)
    (hrun : run b timestampData ops (D3D12QueueCtx.constructed context L)
      = some (ids, batches, s2))
    (htotal : ids.length ≤ L) :
    batches.Pairwise
      (fun earlier later => ∀ x ∈ earlier, ∀ y ∈ later, x.queryId < y.queryId) := by
  have hq := run_queryIds b timestampData ops context L 0 0 ids batches s2 hlimit
    (Or.inr rfl) (by omega) hrun
  have hp : (batches.flatten.map QueueItem.queryId).Pairwise (fun x y => x < y) := by
    rw [hq]
    exact List.pairwise_lt_range' 0 batches.flatten.length
  exact (List.pairwise_flatten.mp (List.pairwise_map.mp hp)).2

/-- Instance of C6 (amended): limit 4; two queries, `Collect`, one query, `Collect`,
one query, `Collect`. The first conjunct is the run itself. -/
theorem later_Collect_ids_greater_witness :
    run ⟨false, Option.none⟩ (fun i => i)
        [Op.NextQueryId, Op.NextQueryId, Op.Collect, Op.NextQueryId, Op.Collect,
          Op.NextQueryId, Op.Collect]
        (D3D12QueueCtx.constructed 0 4)
      = some ([0, 1, 2, 3],
          [[QueueItem.GpuTime 0 0 0, QueueItem.GpuTime 1 1 0], [QueueItem.GpuTime 2 2 0],
            [QueueItem.GpuTime 3 3 0]],
          D3D12QueueCtx.mk 0 4 0 0)
    ∧ [[QueueItem.GpuTime 0 0 0, QueueItem.GpuTime 1 1 0], [QueueItem.GpuTime 2 2 0],
        [QueueItem.GpuTime 3 3 0]].Pairwise
      (fun earlier later => ∀ x ∈ earlier, ∀ y ∈ later, x.queryId < y.queryId) :=
  ⟨by decide,
    later_Collect_ids_greater ⟨false, Option.none⟩ (fun i => i) 0 4
      [Op.NextQueryId, Op.NextQueryId, Op.Collect, Op.NextQueryId, Op.Collect,
        Op.NextQueryId, Op.Collect]
      [0, 1, 2, 3]
      [[QueueItem.GpuTime 0 0 0, QueueItem.GpuTime 1 1 0], [QueueItem.GpuTime 2 2 0],
        [QueueItem.GpuTime 3 3 0]]
      (D3D12QueueCtx.mk 0 4 0 0) (by decide) (by decide) (by decide)⟩

/-- C7 (counterexample). Limit 65536, cursor 65535 (below the limit), two queries
pending (at most the limit): the 16-bit ids written by `Collect` are 65535 and then
0. -/
theorem Collect_ids_wrap_counterexample :
    ((D3D12QueueCtx.mk 0 65536 2 65535).Collect ⟨false, Option.none⟩ true
        (fun i => i)).1.map QueueItem.queryId = [65535, 0]
      ∧ ¬ (((D3D12QueueCtx.mk 0 65536 2 65535).Collect ⟨false, Option.none⟩ true
          (fun i => i)).1.map QueueItem.queryId).Pairwise (fun x y => x < y) := by
  constructor
  · decide
  · decide

/-- C7 (amended). For every context state with
`m_previousQueryCounter + m_queryCounter ≤ 65536`, in either build and whether or
not the collector is connected, the 16-bit query ids written into the `GpuTime`
items of one `Collect` call are strictly increasing in emission order. -/
theorem Collect_ids_increasing (b : Build) (connected : Bool) (timestampData : Nat → Nat)
    (s : D3D12QueueCtx)
    (h16 : s.m_previousQueryCounter + s.m_queryCounter ≤ 65536) :
    ((s.Collect b connected timestampData).1.map QueueItem.queryId).Pairwise
      (fun x y => x < y) := by
  obtain ⟨c, L, p, h⟩ := s
  simp only at h16
  unfold D3D12QueueCtx.Collect
  by_cases h0 : p = h
  · simp [h0]
  · by_cases hd : (b.onDemand && !connected) = true
    · simp [h0, hd]
    · have hids : ((List.range p).map (D3D12QueueCtx.collectItem timestampData ⟨c, L, p, h⟩)).map
          QueueItem.queryId = List.range' h p := by
        rw [List.range'_eq_map_range, List.map_map]
        apply List.map_congr_left
        intro i hi
        have hi2 : i < p := List.mem_range.mp hi
        have hu : u32 (h + i) = h + i := u32_of_lt (by omega)
        simp [D3D12QueueCtx.collectItem, QueueItem.queryId, hu,
          u16_of_lt (show h + i < 65536 by omega)]
      simp only [h0, hd, if_false, Bool.false_eq_true, hids]
      exact List.pairwise_lt_range' h p

/-- Instance of C7: limit 8, cursor 2, six queries pending; the ids written are
2, 3, 4, 5, 6, 7. -/
theorem Collect_ids_increasing_witness :
    (2 + 6 ≤ 65536)
      ∧ ((D3D12QueueCtx.mk 0 8 6 2).Collect ⟨true, Option.none⟩ true
          (fun i => i)).1.map QueueItem.queryId = [2, 3, 4, 5, 6, 7]
      ∧ (((D3D12QueueCtx.mk 0 8 6 2).Collect ⟨true, Option.none⟩ true
          (fun i => i)).1.map QueueItem.queryId).Pairwise (fun x y => x < y) :=
  ⟨by decide, by decide,
    Collect_ids_increasing ⟨true, Option.none⟩ true (fun i => i) (D3D12QueueCtx.mk 0 8 6 2)
      (by decide)⟩

/-- C8. For every context state (32-bit counters) with `m_queryCounter = 0` and
`m_previousQueryCounter < m_queryLimit`, in either build and whether or not the
collector is connected, `Collect` writes no item and returns the context
unchanged; so a second `Collect` right after it again writes nothing and leaves
the same context. -/
theorem Collect_idle (b : Build) (connected : Bool) (timestampData : Nat → Nat)
    (s : D3D12QueueCtx) (hty : s.IsU32) (hpc : s.m_queryCounter = 0)
    (hhc : s.m_previousQueryCounter < s.m_queryLimit) :
    s.Collect b connected timestampData = ([], s)
      ∧ (s.Collect b connected timestampData).2.Collect b connected timestampData
          = ([], s) := by
  obtain ⟨c, L, p, h⟩ := s
  obtain ⟨hL, -, hh⟩ := hty
  simp only at hpc hhc hL hh
  subst hpc
  have key : (D3D12QueueCtx.mk c L 0 h).Collect b connected timestampData
      = ([], D3D12QueueCtx.mk c L 0 h) := by
    unfold D3D12QueueCtx.Collect
    by_cases h0 : 0 = h
    · simp [h0]
    · have hu : u32 h = h := u32_of_lt hh
      have hnot : ¬ (h ≥ L) := by omega
      by_cases hd : (b.onDemand && !connected) = true
      · simp [h0, hd]
      · simp [h0, hd, hu, hnot]
  rw [key]
  exact ⟨rfl, key⟩

/-- Instance of C8: limit 4, cursor 2, nothing pending, collector connected. -/
theorem Collect_idle_witness :
    (D3D12QueueCtx.mk 0 4 0 2).Collect ⟨false, Option.none⟩ true (fun i => i)
        = ([], D3D12QueueCtx.mk 0 4 0 2)
      ∧ ((D3D12QueueCtx.mk 0 4 0 2).Collect ⟨false, Option.none⟩ true (fun i => i)).2.Collect
          ⟨false, Option.none⟩ true (fun i => i) = ([], D3D12QueueCtx.mk 0 4 0 2) :=
  Collect_idle ⟨false, Option.none⟩ true (fun i => i) (D3D12QueueCtx.mk 0 4 0 2)
    (by unfold D3D12QueueCtx.IsU32; decide) rfl (by decide)

/-- C9. For every context state with limit at most `MaxQueries`, nothing pending
and `m_previousQueryCounter < m_queryLimit` (so the limit is at least 1): handing
out `m_queryLimit` slots and then calling `Collect` with the collector connected
writes `m_queryLimit` items and gives back the very same context, cursor included;
doing this twice does too, and the second round hands out the same slots as the
first, `(m_previousQueryCounter + j) mod m_queryLimit` for `j = 0, 1, …`, in the same
order. -/
theorem ring_round_trip (b : Build) (timestampData : Nat → Nat) (s : D3D12QueueCtx)
    (hlimit : s.m_queryLimit ≤ MaxQueries) (hpc : s.m_queryCounter = 0)
    (hhc : s.m_previousQueryCounter < s.m_queryLimit) :
    ∃ batch, batch.length = s.m_queryLimit
      ∧ run b timestampData (List.replicate s.m_queryLimit Op.NextQueryId ++ [Op.Collect]) s
          = some ((List.range s.m_queryLimit).map
                    (fun j => (s.m_previousQueryCounter + j) % s.m_queryLimit),
                  [batch], s)
      ∧ run b timestampData
            ((List.replicate s.m_queryLimit Op.NextQueryId ++ [Op.Collect])
              ++ (List.replicate s.m_queryLimit Op.NextQueryId ++ [Op.Collect])) s
          = some ((List.range s.m_queryLimit).map
                    (fun j => (s.m_previousQueryCounter + j) % s.m_queryLimit)
                  ++ (List.range s.m_queryLimit).map
                    (fun j => (s.m_previousQueryCounter + j) % s.m_queryLimit),
                  [batch, batch], s) := by
  obtain ⟨c, L, p, h⟩ := s
  simp only at hlimit hpc hhc
  subst hpc
  have hc := Collect_eq b timestampData c L L h hlimit (Nat.le_refl L) hhc (by omega)
  have hback : (h + L) % L = h := by
    rw [Nat.add_mod_right]; exact Nat.mod_eq_of_lt hhc
  rw [hback] at hc
  have hone : run b timestampData (List.replicate L Op.NextQueryId ++ [Op.Collect])
      (D3D12QueueCtx.mk c L 0 h)
      = some ((List.range L).map (fun j => (h + j) % L),
          [((D3D12QueueCtx.mk c L L h).Collect b true timestampData).1],
          D3D12QueueCtx.mk c L 0 h) := by
    rw [run_allocs b timestampData c L h [Op.Collect] hlimit hhc L 0 (by omega),
      Nat.zero_add, run_cons_Collect, hc]
    simp only [run, Nat.zero_add, List.append_nil]
  refine ⟨((D3D12QueueCtx.mk c L L h).Collect b true timestampData).1, ?_, hone, ?_⟩
  · rw [hc]; simp
  · rw [List.append_assoc,
      run_allocs b timestampData c L h _ hlimit hhc L 0 (by omega),
      Nat.zero_add, List.singleton_append, run_cons_Collect]
    have h2 : ((D3D12QueueCtx.mk c L L h).Collect b true timestampData).2
        = D3D12QueueCtx.mk c L 0 h := by rw [hc]
    rw [h2, hone]
    simp only [Nat.zero_add]

/-- Instance of C9: limit 4, cursor 2. -/
theorem ring_round_trip_witness :
    ∃ batch, batch.length = 4
      ∧ run ⟨false, Option.none⟩ (fun i => i)
            (List.replicate 4 Op.NextQueryId ++ [Op.Collect]) (D3D12QueueCtx.mk 0 4 0 2)
          = some ((List.range 4).map (fun j => (2 + j) % 4), [batch],
              D3D12QueueCtx.mk 0 4 0 2)
      ∧ run ⟨false, Option.none⟩ (fun i => i)
            ((List.replicate 4 Op.NextQueryId ++ [Op.Collect])
              ++ (List.replicate 4 Op.NextQueryId ++ [Op.Collect]))
            (D3D12QueueCtx.mk 0 4 0 2)
          = some ((List.range 4).map (fun j => (2 + j) % 4)
                  ++ (List.range 4).map (fun j => (2 + j) % 4),
                  [batch, batch], D3D12QueueCtx.mk 0 4 0 2) :=
  ring_round_trip ⟨false, Option.none⟩ (fun i => i) (D3D12QueueCtx.mk 0 4 0 2)
    (by decide) rfl (by decide)

/-- C10. For every context state, a zone scope constructed with `active = false`,
or constructed in the on-demand build while the collector is disconnected, is
inactive; its constructor and its destructor (whatever the context is by then)
record no command (no timestamp query, no resolve), write no queue item (no
ZoneBegin, no ZoneEnd) and leave the context, so both counters, unchanged. -/
theorem inactive_zone_is_noop (b : Build) (connected : Bool) (ctx : D3D12QueueCtx)
    (z z2 : ZoneCall) (active : Bool)
    (h : active = false ∨ (b.onDemand = true ∧ connected = false)) :
    ∃ scope, D3D12ZoneScope.ctor b connected ctx z active = some (scope, Effects.none, ctx)
      ∧ scope.m_active = false
      ∧ (∀ ctx2, scope.dtor ctx2 z2 = some (Effects.none, ctx2))
      ∧ zone b connected ctx z active = some (Effects.none, ctx) := by
  have hact : (if b.onDemand then active && connected else active) = false := by
    rcases h with h | ⟨h1, h2⟩
    · subst h; simp
    · simp [h1, h2]
  refine ⟨⟨false⟩, ?_, rfl, ?_, ?_⟩
  · simp [D3D12ZoneScope.ctor, hact]
  · intro ctx2
    simp [D3D12ZoneScope.dtor]
  · simp [zone, D3D12ZoneScope.ctor, hact, D3D12ZoneScope.dtor, Effects.append, Effects.none]

/-- Instance of C10: on-demand build, `active = true`, collector disconnected. -/
theorem inactive_zone_is_noop_witness :
    ∃ scope, D3D12ZoneScope.ctor ⟨true, Option.none⟩ false (D3D12QueueCtx.mk 0 4 1 2)
          ⟨7, 8, 9, 10⟩ true = some (scope, Effects.none, D3D12QueueCtx.mk 0 4 1 2)
      ∧ scope.m_active = false
      ∧ (∀ ctx2, scope.dtor ctx2 ⟨7, 8, 9, 10⟩ = some (Effects.none, ctx2))
      ∧ zone ⟨true, Option.none⟩ false (D3D12QueueCtx.mk 0 4 1 2) ⟨7, 8, 9, 10⟩ true
          = some (Effects.none, D3D12QueueCtx.mk 0 4 1 2) :=
  inactive_zone_is_noop ⟨true, Option.none⟩ false (D3D12QueueCtx.mk 0 4 1 2) ⟨7, 8, 9, 10⟩
    ⟨7, 8, 9, 10⟩ true (Or.inr ⟨rfl, rfl⟩)

/-! ### Zone ids and the resolve (C11, C12) -/

/-- Reduction modulo `L` of a number below `2 * L`. -/
theorem mod_wrap {x L : Nat} (h : x < 2 * L) :
    x % L = if x < L then x else x - L := by
  by_cases hx : x < L
  · rw [if_pos hx]; exact Nat.mod_eq_of_lt hx
  · rw [if_neg hx, Nat.mod_eq_sub_mod (by omega)]
    exact Nat.mod_eq_of_lt (by omega)

/-- C11 (the code at the failing input). Fresh context with the default limit
65536 and two nested zones: the outer zone is opened (begin id 0), the inner zone
is opened (id 1) and closed (id 2), then the outer zone is closed and gets the end
id 3, not `0 + 1`; its destructor resolves the slots 2 and 3, so the slot 0 of its
begin query is never resolved. -/
theorem nested_zone_end_id :
    D3D12ZoneScope.ctor ⟨false, Option.none⟩ true (D3D12QueueCtx.constructed 0 65536)
        ⟨100, 7, 10, 40⟩ true
      = some (⟨true⟩,
          ⟨[Cmd.EndQuery 0], [QueueItem.GpuZoneBeginSerial 10 100 7 0 0], []⟩,
          D3D12QueueCtx.mk 0 65536 1 0)
    ∧ D3D12ZoneScope.ctor ⟨false, Option.none⟩ true (D3D12QueueCtx.mk 0 65536 1 0)
        ⟨200, 7, 20, 30⟩ true
      = some (⟨true⟩,
          ⟨[Cmd.EndQuery 1], [QueueItem.GpuZoneBeginSerial 20 200 7 1 0], []⟩,
          D3D12QueueCtx.mk 0 65536 2 0)
    ∧ D3D12ZoneScope.dtor ⟨true⟩ (D3D12QueueCtx.mk 0 65536 2 0) ⟨200, 7, 20, 30⟩
      = some (⟨[Cmd.EndQuery 2, Cmd.ResolveQueryData 1 2 8],
            [QueueItem.GpuZoneEndSerial 30 7 2 0], []⟩,
          D3D12QueueCtx.mk 0 65536 3 0)
    ∧ D3D12ZoneScope.dtor ⟨true⟩ (D3D12QueueCtx.mk 0 65536 3 0) ⟨100, 7, 10, 40⟩
      = some (⟨[Cmd.EndQuery 3, Cmd.ResolveQueryData 2 2 16],
            [QueueItem.GpuZoneEndSerial 40 7 3 0], []⟩,
          D3D12QueueCtx.mk 0 65536 4 0)
    ∧ (3 : Nat) ≠ 0 + 1 := by
  refine ⟨?_, ?_, ?_, ?_, ?_⟩ <;> decide

/-- C12 (the code at the failing inputs). The destructor takes `queryId - 1`, the
id before the end id it has just been given, for the begin slot of its zone
(line 275).

Nested zones on a fresh context with the default limit 65536: the outer zone is
opened with begin id 0, the inner zone takes the ids 1 and 2, and the destructor
of the outer zone, given the end id 3, resolves 2 slots from index 2 at byte
offset 16, not from its begin id 0.

Limit 65536, cursor 65535, nothing pending, one zone opened and closed: the begin
id is 65535, the end id wraps to 0, and the destructor resolves 2 slots from index
`0 - 1 = 4294967295` (32-bit) at byte offset 34359738360, which is not the begin id
and lies outside the ring. -/
theorem zone_resolve_start_not_begin :
    (D3D12ZoneScope.ctor ⟨false, Option.none⟩ true (D3D12QueueCtx.constructed 0 65536)
          ⟨100, 7, 10, 40⟩ true
        = some (⟨true⟩,
            ⟨[Cmd.EndQuery 0], [QueueItem.GpuZoneBeginSerial 10 100 7 0 0], []⟩,
            D3D12QueueCtx.mk 0 65536 1 0)
      ∧ zone ⟨false, Option.none⟩ true (D3D12QueueCtx.mk 0 65536 1 0) ⟨200, 7, 20, 30⟩ true
        = some (⟨[Cmd.EndQuery 1, Cmd.EndQuery 2, Cmd.ResolveQueryData 1 2 8],
              [QueueItem.GpuZoneBeginSerial 20 200 7 1 0,
                QueueItem.GpuZoneEndSerial 30 7 2 0], []⟩,
            D3D12QueueCtx.mk 0 65536 3 0)
      ∧ D3D12ZoneScope.dtor ⟨true⟩ (D3D12QueueCtx.mk 0 65536 3 0) ⟨100, 7, 10, 40⟩
        = some (⟨[Cmd.EndQuery 3, Cmd.ResolveQueryData 2 2 16],
              [QueueItem.GpuZoneEndSerial 40 7 3 0], []⟩,
            D3D12QueueCtx.mk 0 65536 4 0)
      ∧ (2 : Nat) ≠ 0)
    ∧ (zone ⟨false, Option.none⟩ true (D3D12QueueCtx.mk 0 65536 0 65535)
          ⟨100, 7, 10, 40⟩ true
        = some (⟨[Cmd.EndQuery 65535, Cmd.EndQuery 0,
                Cmd.ResolveQueryData 4294967295 2 34359738360],
              [QueueItem.GpuZoneBeginSerial 10 100 7 65535 0,
                QueueItem.GpuZoneEndSerial 40 7 0 0], []⟩,
            D3D12QueueCtx.mk 0 65536 2 65535)
      ∧ (4294967295 : Nat) ≠ 65535
      ∧ ¬ ((4294967295 : Nat) + 1 < 65536)) := by
  refine ⟨⟨?_, ?_, ?_, ?_⟩, ⟨?_, ?_, ?_⟩⟩ <;> decide

/-- Where the resolve of line 275 does start at the begin id: for every context
state with limit at most `MaxQueries`, cursor inside the ring and room for two
more queries, an active zone that is closed right after it was opened (nothing
else allocated in between) and whose begin id
`(m_previousQueryCounter + m_queryCounter) mod m_queryLimit` is not the last slot
of the ring: the end id is the begin id plus one, and closing the zone issues one
resolve, of exactly 2 query slots, starting at the begin id, at byte offset
`begin id * 8`; both resolved slots are inside the ring. -/
theorem zone_resolve (b : Build) (s : D3D12QueueCtx) (z : ZoneCall)
    (hlimit : s.m_queryLimit ≤ MaxQueries)
    (hhc : s.m_previousQueryCounter < s.m_queryLimit)
    (hroom : s.m_queryCounter + 2 ≤ s.m_queryLimit)
    (hlast : (s.m_previousQueryCounter + s.m_queryCounter) % s.m_queryLimit + 1
      < s.m_queryLimit) :
    ∃ e s2, zone b true s z true = some (e, s2)
      ∧ e.items.map QueueItem.queryId
          = [(s.m_previousQueryCounter + s.m_queryCounter) % s.m_queryLimit,
             (s.m_previousQueryCounter + s.m_queryCounter) % s.m_queryLimit + 1]
      ∧ e.cmds
          = [Cmd.EndQuery ((s.m_previousQueryCounter + s.m_queryCounter) % s.m_queryLimit),
             Cmd.EndQuery
               ((s.m_previousQueryCounter + s.m_queryCounter) % s.m_queryLimit + 1),
             Cmd.ResolveQueryData
               ((s.m_previousQueryCounter + s.m_queryCounter) % s.m_queryLimit) 2
               ((s.m_previousQueryCounter + s.m_queryCounter) % s.m_queryLimit * 8)]
      ∧ s2.m_queryCounter = s.m_queryCounter + 2 := by
  obtain ⟨c, L, p, h⟩ := s
  simp only at hlimit hhc hroom hlast
  rw [MaxQueries_eq] at hlimit
  generalize hq : (h + p) % L = q at hlast ⊢
  have n1 := NextQueryId_eq c L p h (by omega) (by omega) (by omega)
  have n2 := NextQueryId_eq c L (p + 1) h (by omega) (by omega) (by omega)
  have m2 : (h + (p + 1)) % L = q + 1 := by
    have e1 := mod_wrap (show h + p < 2 * L by omega)
    have e2 := mod_wrap (show h + (p + 1) < 2 * L by omega)
    rw [hq] at e1
    rw [e2]
    split at e1 <;> split <;> omega
  rw [hq] at n1
  rw [m2] at n2
  have v1 : u16 q = q := u16_of_lt (by omega)
  have v2 : u16 (q + 1) = q + 1 := u16_of_lt (by omega)
  have hstart : u32 (q + 1 + 4294967296 - 1) = q := by unfold u32; omega
  have hoff : q * 8 % 18446744073709551616 = q * 8 := by omega
  have hact : (if b.onDemand then true && true else true) = true := by
    cases b.onDemand <;> rfl
  unfold zone D3D12ZoneScope.ctor
  simp only [hact, Bool.not_true, Bool.false_eq_true, if_false, n1]
  unfold D3D12ZoneScope.dtor
  simp only [Bool.not_true, Bool.false_eq_true, if_false, n2, hstart, hoff]
  refine ⟨_, _, rfl, ?_, ?_, rfl⟩
  · cases b.callstack <;>
      simp only [Effects.append, List.map_append, List.map_cons, List.map_nil,
        QueueItem.queryId, v1, v2, List.singleton_append]
  · simp only [Effects.append, List.singleton_append]

/-- Instance of `zone_resolve`: limit 4, cursor 3, two queries pending. The begin id
is `(3 + 2) mod 4 = 1`, the end id 2, and the resolve covers 2 slots from index 1
at byte offset 8. -/
theorem zone_resolve_witness :
    ∃ e s2, zone ⟨false, Option.none⟩ true (D3D12QueueCtx.mk 0 4 2 3) ⟨100, 7, 10, 40⟩ true
        = some (e, s2)
      ∧ e.items.map QueueItem.queryId = [(3 + 2) % 4, (3 + 2) % 4 + 1]
      ∧ e.cmds = [Cmd.EndQuery ((3 + 2) % 4), Cmd.EndQuery ((3 + 2) % 4 + 1),
          Cmd.ResolveQueryData ((3 + 2) % 4) 2 ((3 + 2) % 4 * 8)]
      ∧ s2.m_queryCounter = 2 + 2 :=
  zone_resolve ⟨false, Option.none⟩ (D3D12QueueCtx.mk 0 4 2 3) ⟨100, 7, 10, 40⟩
    (by decide) (by decide) (by decide) (by decide)

/-- C13. `NextQueryId` fails its assertion exactly when
`m_queryCounter ≥ m_queryLimit`; when it fails, no id is returned and the context
is as it was before the call; when `m_queryCounter < m_queryLimit` it returns. -/
theorem NextQueryId_fails_iff (s : D3D12QueueCtx) :
    (s.NextQueryId = Option.none ↔ s.m_queryLimit ≤ s.m_queryCounter)
      ∧ (s.NextQueryIdOutcome = Except.error s ↔ s.m_queryLimit ≤ s.m_queryCounter)
      ∧ (s.m_queryCounter < s.m_queryLimit →
          ∃ r, s.NextQueryId = some r ∧ s.NextQueryIdOutcome = Except.ok r) := by
  refine ⟨?_, ?_, ?_⟩
  · unfold D3D12QueueCtx.NextQueryId
    by_cases h : s.m_queryCounter < s.m_queryLimit
    · simp [h]
    · simp [h]; omega
  · unfold D3D12QueueCtx.NextQueryIdOutcome
    by_cases h : s.m_queryCounter < s.m_queryLimit
    · simp [h]
    · simp [h]; omega
  · intro h
    unfold D3D12QueueCtx.NextQueryId D3D12QueueCtx.NextQueryIdOutcome
    simp [h]

/-- Instance of C13: limit 4 with four queries pending (the call fails), and with
three pending (the call returns slot `(2 + 3) mod 4 = 1`). -/
theorem NextQueryId_fails_iff_witness :
    (D3D12QueueCtx.mk 0 4 4 2).NextQueryId = Option.none
      ∧ (D3D12QueueCtx.mk 0 4 4 2).NextQueryIdOutcome = Except.error (D3D12QueueCtx.mk 0 4 4 2)
      ∧ ∃ r, (D3D12QueueCtx.mk 0 4 3 2).NextQueryId = some r
          ∧ (D3D12QueueCtx.mk 0 4 3 2).NextQueryIdOutcome = Except.ok r :=
  ⟨(NextQueryId_fails_iff (D3D12QueueCtx.mk 0 4 4 2)).1.mpr (by decide),
    (NextQueryId_fails_iff (D3D12QueueCtx.mk 0 4 4 2)).2.1.mpr (by decide),
    (NextQueryId_fails_iff (D3D12QueueCtx.mk 0 4 3 2)).2.2 (by decide)⟩

/-! ### Construction (C14, C15, C16) -/

/-- When `CreateQueryHeap` fails for every count, the loop of lines 94-98 is still
running after any number of calls, whatever limit it starts from. -/
theorem createQueryHeapLoop_all_fail (fuel limit : Nat) :
    createQueryHeapLoop (fun _ => false) fuel limit = Option.none := by
  induction fuel generalizing limit with
  | zero => rfl
  | succ n ih =>
    unfold createQueryHeapLoop
    simp only [Bool.false_eq_true, if_false]
    exact ih _

/-- C14 (the code at the failing input). A device on which `CreateQueryHeap` fails
for every count of 2 or more and succeeds for a count of 1: the loop of lines
94-98 halves `m_queryLimit` from 65536 down to 1 and stops there, the constructor
completes, and the context has `m_queryLimit = 1`. On that context the first zone
trips the assertion of `NextQueryId` when it is closed. -/
theorem ctor_accepts_limit_one :
    createQueryHeapLoop (fun count => decide (count ≤ 1)) 17 MaxQueries = some 1
      ∧ (D3D12QueueCtx.ctor ⟨false, Option.none⟩
            ⟨0, false, true, some 1000, some (10, 20), 30,
              fun count => decide (count ≤ 1), fun _ => true⟩ 17).map (fun r => r.ctx)
          = some (D3D12QueueCtx.constructed 0 1)
      ∧ ¬ (2 ≤ (D3D12QueueCtx.constructed 0 1).m_queryLimit)
      ∧ zone ⟨false, Option.none⟩ true (D3D12QueueCtx.constructed 0 1) ⟨100, 7, 10, 40⟩ true
          = Option.none := by
  refine ⟨?_, ?_, ?_, ?_⟩ <;> decide

/-- C15 (the code at the failing input). A device on which `CreateQueryHeap` fails
for every count: for every number `fuel` of attempts the loop of lines 94-98 is
still running (it has no exit but a successful creation, and `m_queryLimit` stays
at 0 once it gets there), so the constructor never comes to an end, neither with
a context nor with a failed assertion. -/
theorem createQueryHeapLoop_never_ends (b : Build) (fuel : Nat) :
    createQueryHeapLoop (fun _ => false) fuel MaxQueries = Option.none
      ∧ D3D12QueueCtx.ctor b
          ⟨0, false, true, some 1000, some (10, 20), 30, fun _ => false, fun _ => true⟩ fuel
          = Option.none := by
  have h := createQueryHeapLoop_all_fail fuel MaxQueries
  refine ⟨h, ?_⟩
  unfold D3D12QueueCtx.ctor
  simp only [h, Bool.and_false, Bool.false_and, Bool.false_eq_true, if_false]

/-- C16 (counterexample). The clock calibration returns the device time 10 and the
host time 20, and `Profiler::GetTime()` then returns 30: the one `GpuNewContext`
item written by the constructor has `gpuTime = 10` and `cpuTime = 30`, not the host
time 20 of the calibrated pair. -/
theorem ctor_cpuTime_counterexample :
    (D3D12QueueCtx.ctor ⟨false, Option.none⟩
        ⟨0, false, true, some 1000, some (10, 20), 30, fun _ => true, fun _ => true⟩
        1).map (fun r => r.items)
      = some [⟨30, 10, 0, 1000, 0, 0, GpuContextType.Vulkan⟩]
    ∧ (30 : Nat) ≠ 20 := by
  refine ⟨?_, ?_⟩ <;> decide

/-- C16 (amended). Whenever the feature check, `GetTimestampFrequency`,
`GetClockCalibration`, the loop of lines 94-98 and `CreateCommittedResource` all
succeed, the constructor returns and has written exactly one `GpuNewContext` item.
Its `gpuTime` is the device time of the calibrated pair, its `cpuTime` is the value
of `Profiler::GetTime()` read right after the calibration (the host time of the
calibrated pair is dropped), its `context` is the id of the context and its
`thread` field is zero. -/
theorem ctor_calibration_item (b : Build) (env : QueueEnv) (fuel f g c L : Nat)
    (hcopy : (env.isCopyQueue && !env.checkFeatureSupport) = false)
    (hf : env.timestampFrequency = some f)
    (hc : env.clockCalibration = some (g, c))
    (hloop : createQueryHeapLoop env.createQueryHeap fuel MaxQueries = some L)
    (hres : env.createCommittedResource (L * 8 % 18446744073709551616) = true) :
    ∃ r, D3D12QueueCtx.ctor b env fuel = some r
      ∧ r.items = [⟨env.profilerTime, g, 0, f, env.contextId, 0, GpuContextType.Vulkan⟩]
      ∧ r.ctx = D3D12QueueCtx.constructed env.contextId L := by
  unfold D3D12QueueCtx.ctor
  simp only [hcopy, hf, hc, hloop, hres, Bool.false_eq_true, if_false, Bool.not_true]
  exact ⟨_, rfl, rfl, rfl⟩

/-- Instance of C16 (amended): calibrated pair (10, 20), `Profiler::GetTime()`
returns 30, every creation succeeds at once. -/
theorem ctor_calibration_item_witness :
    ∃ r, D3D12QueueCtx.ctor ⟨false, Option.none⟩
          ⟨3, false, true, some 1000, some (10, 20), 30, fun _ => true, fun _ => true⟩ 1
          = some r
      ∧ r.items = [⟨30, 10, 0, 1000, 3, 0, GpuContextType.Vulkan⟩]
      ∧ r.ctx = D3D12QueueCtx.constructed 3 MaxQueries :=
  ctor_calibration_item ⟨false, Option.none⟩
    ⟨3, false, true, some 1000, some (10, 20), 30, fun _ => true, fun _ => true⟩ 1 1000 10 20
    MaxQueries rfl rfl rfl rfl rfl

/-! ### Bounds on the counters and pending slots (C17, C18) -/

/-- The cursor that `Collect` computes in lines 192-198 is a slot of the ring,
also when the 32-bit sum wraps. -/
theorem Collect_cursor_lt {L p h : Nat} (hh : h < L) (hp : p ≤ L) :
    (if u32 (h + p) ≥ L then u32 (u32 (h + p) - L) else u32 (h + p)) < L := by
  unfold u32
  split <;> omega

/-- The context `Collect` leaves behind is the one it found (skipped by line 153),
or one with nothing pending and a cursor inside the ring. -/
theorem Collect_state (b : Build) (connected : Bool) (timestampData : Nat → Nat)
    (c L p h : Nat) (hp : p ≤ L) (hh : h < L ∨ h = 0) :
    ((D3D12QueueCtx.mk c L p h).Collect b connected timestampData).2
        = D3D12QueueCtx.mk c L p h
    ∨ ∃ h2, (h2 < L ∨ h2 = 0) ∧
        ((D3D12QueueCtx.mk c L p h).Collect b connected timestampData).2
          = D3D12QueueCtx.mk c L 0 h2 := by
  unfold D3D12QueueCtx.Collect
  by_cases h0 : p = h
  · left
    simp [h0]
  · right
    by_cases hd : (b.onDemand && !connected) = true
    · exact ⟨h, hh, by simp [h0, hd]⟩
    · have hlt : h < L := by omega
      refine ⟨_, Or.inl (Collect_cursor_lt hlt hp), ?_⟩
      simp only [h0, hd, if_false, Bool.false_eq_true]

/-- The slots of the pending queries are pairwise distinct as long as no more than
`m_queryLimit` queries are pending. -/
theorem pending_nodup (c L p h : Nat) (hp : p ≤ L) (hh : h < L ∨ h = 0) :
    (D3D12QueueCtx.mk c L p h).pending.Nodup := by
  unfold D3D12QueueCtx.pending
  apply List.Nodup.map_on _ (List.nodup_range p)
  intro i hi j hj heq
  have hi2 : i < p := List.mem_range.mp hi
  have hj2 : j < p := List.mem_range.mp hj
  simp only at heq
  rw [mod_wrap (show h + i < 2 * L by omega), mod_wrap (show h + j < 2 * L by omega)] at heq
  split at heq <;> split at heq <;> omega

/-- The list of pending slots kept by `runCalls` is the list of slots that the
counters of the context describe, and the bounds on the counters are kept. -/
theorem runCalls_pending (b : Build) (timestampData : Nat → Nat) :
    ∀ (calls : List Call) (pend : List Nat) (c L p h : Nat) (pend2 : List Nat)
      (s2 : D3D12QueueCtx),
      L ≤ MaxQueries → p ≤ L → (h < L ∨ h = 0) →
      pend = (D3D12QueueCtx.mk c L p h).pending →
      runCalls b timestampData calls pend (D3D12QueueCtx.mk c L p h) = some (pend2, s2) →
        pend2 = s2.pending ∧ pend2.Nodup ∧ pend2.length = s2.m_queryCounter := by
  intro calls
  induction calls with
  | nil =>
    intro pend c L p h pend2 s2 _ hp hh hpend hrun
    simp only [runCalls, Option.some.injEq, Prod.mk.injEq] at hrun
    obtain ⟨rfl, rfl⟩ := hrun
    refine ⟨hpend, ?_, ?_⟩
    · rw [hpend]; exact pending_nodup c L p h hp hh
    · rw [hpend]; simp [D3D12QueueCtx.pending]
  | cons call calls ih =>
    intro pend c L p h pend2 s2 hL hp hh hpend hrun
    have hL2 : L ≤ 65536 := by rw [MaxQueries_eq] at hL; exact hL
    cases call with
    | NextQueryId =>
      by_cases hpl : p < L
      · have hn := NextQueryId_eq c L p h (by omega) (by omega) hpl
        simp only [runCalls, hn] at hrun
        refine ih (pend ++ [(h + p) % L]) c L (p + 1) h pend2 s2 hL (by omega) hh ?_ hrun
        rw [hpend]
        simp [D3D12QueueCtx.pending, List.range_succ]
      · have hn : (D3D12QueueCtx.mk c L p h).NextQueryId = Option.none := by
          simp [D3D12QueueCtx.NextQueryId, hpl]
        simp [runCalls, hn] at hrun
    | Collect connected =>
      simp only [runCalls] at hrun
      have hlen : pend.length = p := by rw [hpend]; simp [D3D12QueueCtx.pending]
      rcases Collect_state b connected timestampData c L p h hp hh with hs | ⟨h2, hh2, hs⟩
      · rw [hs] at hrun
        simp only [Nat.sub_self, List.drop_zero] at hrun
        exact ih pend c L p h pend2 s2 hL hp hh hpend hrun
      · rw [hs] at hrun
        simp only [Nat.sub_zero] at hrun
        rw [List.drop_eq_nil_of_le (by omega)] at hrun
        refine ih [] c L 0 h2 pend2 s2 hL (by omega) hh2 ?_ hrun
        simp [D3D12QueueCtx.pending]

/-- C17. The bounds `m_queryCounter ≤ m_queryLimit` and
`m_previousQueryCounter < m_queryLimit` hold for a freshly constructed context
with limit at least 1 and are kept by every operation: by `NextQueryId` under its
assertion `m_queryCounter < m_queryLimit` (which then returns), and by `Collect` in
either build, with the collector connected or disconnected. -/
theorem Inv_preserved :
    (∀ context L : Nat, 1 ≤ L → (D3D12QueueCtx.constructed context L).Inv)
      ∧ (∀ s : D3D12QueueCtx, s.Inv → s.m_queryCounter < s.m_queryLimit →
          ∃ id s1, s.NextQueryId = some (id, s1) ∧ s1.Inv)
      ∧ (∀ (b : Build) (connected : Bool) (timestampData : Nat → Nat) (s : D3D12QueueCtx),
          s.Inv → (s.Collect b connected timestampData).2.Inv) := by
  refine ⟨?_, ?_, ?_⟩
  · intro context L hL
    exact ⟨Nat.zero_le _, hL⟩
  · intro s hinv hpc
    obtain ⟨c, L, p, h⟩ := s
    obtain ⟨h1, h2⟩ := hinv
    simp only at h1 h2 hpc
    refine ⟨u32 (h + p) % L, D3D12QueueCtx.mk c L (u32 (p + 1)) h,
      by simp [D3D12QueueCtx.NextQueryId, hpc], ?_, h2⟩
    show u32 (p + 1) ≤ L
    unfold u32
    omega
  · intro b connected timestampData s hinv
    obtain ⟨c, L, p, h⟩ := s
    obtain ⟨h1, h2⟩ := hinv
    simp only at h1 h2
    rcases Collect_state b connected timestampData c L p h h1 (Or.inl h2) with hs | ⟨h3, hh3, hs⟩
    · rw [hs]; exact ⟨h1, h2⟩
    · rw [hs]
      refine ⟨Nat.zero_le _, ?_⟩
      show h3 < L
      omega

/-- Instance of C17: limit 4; the fresh context, `NextQueryId` with cursor 3 and two
queries pending, and a `Collect` in the on-demand build with the collector
disconnected. -/
theorem Inv_preserved_witness :
    (D3D12QueueCtx.constructed 0 4).Inv
      ∧ (∃ id s1, (D3D12QueueCtx.mk 0 4 2 3).NextQueryId = some (id, s1) ∧ s1.Inv)
      ∧ ((D3D12QueueCtx.mk 0 4 2 3).Collect ⟨true, Option.none⟩ false (fun i => i)).2.Inv :=
  ⟨Inv_preserved.1 0 4 (by decide),
    Inv_preserved.2.1 (D3D12QueueCtx.mk 0 4 2 3) ⟨by decide, by decide⟩ (by decide),
    Inv_preserved.2.2 ⟨true, Option.none⟩ false (fun i => i) (D3D12QueueCtx.mk 0 4 2 3)
      ⟨by decide, by decide⟩⟩

/-- C18. In every run of `NextQueryId` and `Collect` calls (collector connected or
not, either build) from a freshly constructed context with limit at most
`MaxQueries` in which no assertion fails, the slots of the queries that are
currently pending (handed out and not yet read or dropped by `Collect`) are
pairwise distinct; they are the `m_queryCounter` slots that follow the cursor,
and the slot a further `NextQueryId` call hands out is none of them. -/
theorem pending_slots_distinct (b : Build) (timestampData : Nat → Nat)
    (context L : Nat) (calls : List Call) (pend : List Nat) (s2 : D3D12QueueCtx)
    (hlimit : L ≤ MaxQueries)
    (hrun : runCalls b timestampData calls [] (D3D12QueueCtx.constructed context L)
      = some (pend, s2)) :
    pend.Nodup ∧ pend = s2.pending ∧ pend.length = s2.m_queryCounter
      ∧ ∀ id s3, s2.NextQueryId = some (id, s3) → id ∉ pend := by
  have hnil : [] = (D3D12QueueCtx.mk context L 0 0).pending := by
    simp [D3D12QueueCtx.pending]
  obtain ⟨k1, k2, k3⟩ := runCalls_pending b timestampData calls [] context L 0 0 pend s2
    hlimit (by omega) (Or.inr rfl) hnil hrun
  refine ⟨k2, k1, k3, ?_⟩
  intro id s3 hnext
  have hrun2 : runCalls b timestampData (calls ++ [Call.NextQueryId]) []
      (D3D12QueueCtx.constructed context L) = some (pend ++ [id], s3) := by
    have happ : ∀ (cs : List Call) (pd : List Nat) (s : D3D12QueueCtx),
        runCalls b timestampData cs pd s = some (pend, s2) →
        runCalls b timestampData (cs ++ [Call.NextQueryId]) pd s = some (pend ++ [id], s3) := by
      intro cs
      induction cs with
      | nil =>
        intro pd s hr
        simp only [runCalls, Option.some.injEq, Prod.mk.injEq] at hr
        obtain ⟨rfl, rfl⟩ := hr
        simp only [List.nil_append, runCalls, hnext]
      | cons call cs ih =>
        intro pd s hr
        cases call with
        | NextQueryId =>
          simp only [List.cons_append, runCalls] at hr ⊢
          cases hq : s.NextQueryId with
          | none => simp [hq] at hr
          | some r =>
            obtain ⟨q, s1⟩ := r
            simp only [hq] at hr ⊢
            exact ih _ _ hr
        | Collect connected =>
          simp only [List.cons_append, runCalls] at hr ⊢
          exact ih _ _ hr
    exact happ calls [] _ hrun
  obtain ⟨-, n2, -⟩ := runCalls_pending b timestampData (calls ++ [Call.NextQueryId]) []
    context L 0 0 (pend ++ [id]) s3 hlimit (by omega) (Or.inr rfl) hnil hrun2
  intro hmem
  have := (List.nodup_append.mp n2).2.2
  exact this hmem (List.mem_singleton.mpr rfl)

/-- Instance of C18: limit 4; two queries, `Collect`, three queries (the ring wraps),
a `Collect` with the collector disconnected in the on-demand build, one query.
The first conjunct is the run itself. -/
theorem pending_slots_distinct_witness :
    runCalls ⟨true, Option.none⟩ (fun i => i)
        [Call.NextQueryId, Call.NextQueryId, Call.Collect true, Call.NextQueryId,
          Call.NextQueryId, Call.NextQueryId, Call.Collect false, Call.NextQueryId]
        [] (D3D12QueueCtx.constructed 0 4)
      = some ([2], D3D12QueueCtx.mk 0 4 1 2)
    ∧ ([2] : List Nat).Nodup ∧ [2] = (D3D12QueueCtx.mk 0 4 1 2).pending
      ∧ ([2] : List Nat).length = (D3D12QueueCtx.mk 0 4 1 2).m_queryCounter
      ∧ ∀ id s3, (D3D12QueueCtx.mk 0 4 1 2).NextQueryId = some (id, s3) → id ∉ [2] :=
  ⟨by decide,
    pending_slots_distinct ⟨true, Option.none⟩ (fun i => i) 0 4
      [Call.NextQueryId, Call.NextQueryId, Call.Collect true, Call.NextQueryId,
        Call.NextQueryId, Call.NextQueryId, Call.Collect false, Call.NextQueryId]
      [2] (D3D12QueueCtx.mk 0 4 1 2) (by decide) (by decide)⟩

/-! ### The 16-bit query ids (C19, C20) -/

/-- What an active constructor and an active destructor do on a context whose
assertion holds: each hands out the slot that `NextQueryId` returns, and the id
in the item written is that slot cut to 16 bits. -/
theorem zone_item_ids (b : Build) (s : D3D12QueueCtx) (z : ZoneCall)
    (hpc : s.m_queryCounter < s.m_queryLimit) :
    ∃ id s1, s.NextQueryId = some (id, s1)
      ∧ id = u32 (s.m_previousQueryCounter + s.m_queryCounter) % s.m_queryLimit
      ∧ (∃ scope e, D3D12ZoneScope.ctor b true s z true = some (scope, e, s1)
          ∧ e.items.map QueueItem.queryId = [u16 id])
      ∧ (∃ e, D3D12ZoneScope.dtor ⟨true⟩ s z = some (e, s1)
          ∧ e.items.map QueueItem.queryId = [u16 id]) := by
  have hn : s.NextQueryId
      = some (u32 (s.m_previousQueryCounter + s.m_queryCounter) % s.m_queryLimit,
          { s with m_queryCounter := u32 (s.m_queryCounter + 1) }) := by
    simp [D3D12QueueCtx.NextQueryId, hpc]
  have hact : (if b.onDemand then true && true else true) = true := by
    cases b.onDemand <;> rfl
  refine ⟨_, _, hn, rfl, ?_, ?_⟩
  · unfold D3D12ZoneScope.ctor
    simp only [hact, Bool.not_true, Bool.false_eq_true, if_false, hn]
    refine ⟨_, _, rfl, ?_⟩
    cases b.callstack <;> rfl
  · unfold D3D12ZoneScope.dtor
    simp only [Bool.not_true, Bool.false_eq_true, if_false, hn]
    exact ⟨_, rfl, rfl⟩

/-- C19. With `m_queryLimit = 65536`, cursor inside the ring and at most 65536
queries pending: the 16-bit id in the i-th `GpuTime` item that a `Collect` call
writes is `(m_previousQueryCounter + i) mod 65536`, and that is also the 16-bit id
that the constructor, and the destructor, of a zone writes into its begin or end
item when it makes the i-th pending allocation (the call made with `i` queries
pending), also when `m_previousQueryCounter + i ≥ 65536`. -/
theorem ids_agree_at_full_limit (b : Build) (connected : Bool)
    (timestampData : Nat → Nat) (s : D3D12QueueCtx) (z : ZoneCall)
    (hcap : s.m_queryLimit = 65536)
    (hhc : s.m_previousQueryCounter < s.m_queryLimit)
    (hpc : s.m_queryCounter ≤ s.m_queryLimit) :
    (s.Collect b connected timestampData).1.map QueueItem.queryId
        = ((List.range s.m_queryCounter).map
            (fun i => (s.m_previousQueryCounter + i) % 65536)).take
            (s.Collect b connected timestampData).1.length
      ∧ ∀ i, i < s.m_queryCounter →
          (∃ scope e s1,
              D3D12ZoneScope.ctor b true { s with m_queryCounter := i } z true
                = some (scope, e, s1)
              ∧ e.items.map QueueItem.queryId = [(s.m_previousQueryCounter + i) % 65536])
          ∧ (∃ e s1,
              D3D12ZoneScope.dtor ⟨true⟩ { s with m_queryCounter := i } z = some (e, s1)
              ∧ e.items.map QueueItem.queryId
                  = [(s.m_previousQueryCounter + i) % 65536]) := by
  obtain ⟨c, L, p, h⟩ := s
  simp only at hcap hhc hpc
  subst hcap
  constructor
  · unfold D3D12QueueCtx.Collect
    by_cases h0 : p = h
    · simp [h0]
    · by_cases hd : (b.onDemand && !connected) = true
      · simp [h0, hd]
      · have hids : ((List.range p).map
            (D3D12QueueCtx.collectItem timestampData ⟨c, 65536, p, h⟩)).map QueueItem.queryId
            = (List.range p).map (fun i => (h + i) % 65536) := by
          rw [List.map_map]
          apply List.map_congr_left
          intro i hi
          have hi2 : i < p := List.mem_range.mp hi
          have hu : u32 (h + i) = h + i := u32_of_lt (by omega)
          simp [D3D12QueueCtx.collectItem, QueueItem.queryId, hu, u16]
        simp only [h0, hd, if_false, Bool.false_eq_true, hids, List.length_map,
          List.length_range]
        exact (List.take_of_length_le (by simp)).symm
  · intro i hi
    have hi2 : i < p := hi
    obtain ⟨id, s1, -, hid, ⟨scope, e, hctor, hq1⟩, ⟨e2, hdtor, hq2⟩⟩ :=
      zone_item_ids b (D3D12QueueCtx.mk c 65536 i h) z (by show i < 65536; omega)
    have hval : u16 id = (h + i) % 65536 := by
      rw [hid]
      show u16 (u32 (h + i) % 65536) = (h + i) % 65536
      unfold u16 u32
      omega
    rw [hval] at hq1 hq2
    exact ⟨⟨scope, e, s1, hctor, hq1⟩, ⟨e2, s1, hdtor, hq2⟩⟩

/-- Instance of C19: limit 65536, cursor 65535, two queries pending. The ids are
65535 and 0 in the `GpuTime` items and in the zone items alike. -/
theorem ids_agree_at_full_limit_witness :
    ((D3D12QueueCtx.mk 0 65536 2 65535).Collect ⟨false, Option.none⟩ true
          (fun i => i)).1.map QueueItem.queryId
        = ((List.range 2).map (fun i => (65535 + i) % 65536)).take
            ((D3D12QueueCtx.mk 0 65536 2 65535).Collect ⟨false, Option.none⟩ true
              (fun i => i)).1.length
      ∧ ∀ i, i < 2 →
          (∃ scope e s1,
              D3D12ZoneScope.ctor ⟨false, Option.none⟩ true
                  { D3D12QueueCtx.mk 0 65536 2 65535 with m_queryCounter := i }
                  ⟨100, 7, 10, 40⟩ true
                = some (scope, e, s1)
              ∧ e.items.map QueueItem.queryId = [(65535 + i) % 65536])
          ∧ (∃ e s1,
              D3D12ZoneScope.dtor ⟨true⟩
                  { D3D12QueueCtx.mk 0 65536 2 65535 with m_queryCounter := i }
                  ⟨100, 7, 10, 40⟩ = some (e, s1)
              ∧ e.items.map QueueItem.queryId = [(65535 + i) % 65536]) :=
  ids_agree_at_full_limit ⟨false, Option.none⟩ true (fun i => i)
    (D3D12QueueCtx.mk 0 65536 2 65535) ⟨100, 7, 10, 40⟩ rfl (by decide) (by decide)

/-- C20. For every context state with `m_queryLimit ≤ 65536` and
`m_queryCounter < m_queryLimit` (so the limit is at least 1), `NextQueryId` returns
an id strictly below `m_queryLimit`; cutting it to 16 bits changes nothing, and
the id written into the begin item by the constructor of an active zone, and into
the end item by its destructor, is the returned slot itself. -/
theorem NextQueryId_lt_limit (b : Build) (s : D3D12QueueCtx) (z : ZoneCall)
    (hcap : s.m_queryLimit ≤ 65536) (hpc : s.m_queryCounter < s.m_queryLimit) :
    ∃ id s1, s.NextQueryId = some (id, s1)
      ∧ id < s.m_queryLimit
      ∧ u16 id = id
      ∧ (∃ scope e, D3D12ZoneScope.ctor b true s z true = some (scope, e, s1)
          ∧ e.items.map QueueItem.queryId = [id])
      ∧ (∃ e, D3D12ZoneScope.dtor ⟨true⟩ s z = some (e, s1)
          ∧ e.items.map QueueItem.queryId = [id]) := by
  obtain ⟨id, s1, hn, hid, ⟨scope, e, hctor, hq1⟩, ⟨e2, hdtor, hq2⟩⟩ :=
    zone_item_ids b s z hpc
  have hlt : id < s.m_queryLimit := by
    rw [hid]
    exact Nat.mod_lt _ (by omega)
  have h16 : u16 id = id := u16_of_lt (by omega)
  rw [h16] at hq1 hq2
  exact ⟨id, s1, hn, hlt, h16, ⟨scope, e, hctor, hq1⟩, ⟨e2, hdtor, hq2⟩⟩

/-- Instance of C20: limit 4, cursor 3, two queries pending; the slot returned is
`(3 + 2) mod 4 = 1`. -/
theorem NextQueryId_lt_limit_witness :
    ∃ id s1, (D3D12QueueCtx.mk 0 4 2 3).NextQueryId = some (id, s1)
      ∧ id < 4
      ∧ u16 id = id
      ∧ (∃ scope e, D3D12ZoneScope.ctor ⟨false, Option.none⟩ true (D3D12QueueCtx.mk 0 4 2 3)
            ⟨100, 7, 10, 40⟩ true = some (scope, e, s1)
          ∧ e.items.map QueueItem.queryId = [id])
      ∧ (∃ e, D3D12ZoneScope.dtor ⟨true⟩ (D3D12QueueCtx.mk 0 4 2 3) ⟨100, 7, 10, 40⟩
            = some (e, s1)
          ∧ e.items.map QueueItem.queryId = [id]) :=
  NextQueryId_lt_limit ⟨false, Option.none⟩ (D3D12QueueCtx.mk 0 4 2 3) ⟨100, 7, 10, 40⟩
    (by decide) (by decide)

end tracy
